import Mathlib

/-!
Verification of the DIRECT_XIP / RAM_LOAD image-selection core of the
mcuboot loader (`boot/bootutil/src/loader_xip_ram_common.c`,
`loader_direct_xip.c`, `loader_ram_load.c`, `loader_public.c`).

The C code is shallowly embedded: flash and platform collaborators
(header reader, trailer reader, signature validator, security-counter
service, find-slot hook, TLV iterator) are inputs of the model, and the
loader's control flow is reproduced as executable Lean functions.
-/

set_option maxRecDepth 4000

namespace MCUBoot

/-- Trailer magic triplet as classified by `boot_read_swap_state`:
`good`, `bad`, or `unset` (erased). -/
inductive BootMagic where
  | good
  | bad
  | unset
deriving DecidableEq

/-- Trailer flag byte as classified by `boot_read_swap_state`:
`set = 0x01`, `unset = 0xff` (erased), anything else is `bad`. -/
inductive BootFlag where
  | set
  | unset
  | bad
deriving DecidableEq

/-- Image version quadruple `(major, minor, revision, build)` from
`struct image_version`. -/
structure ImageVersion where
  iv_major : Nat
  iv_minor : Nat
  iv_revision : Nat
  iv_build_num : Nat
deriving DecidableEq

/-- The fields of `struct image_header` the XIP/RAM loader core reads:
the flags word, the load address, and the version. -/
structure ImageHeader where
  ih_flags : Nat
  ih_load_addr : Nat
  ih_ver : ImageVersion
deriving DecidableEq

/-- Trailer swap state (`struct boot_swap_state`) as read by
`boot_read_swap_state`; the core never interprets `swap_type`. -/
structure BootSwapState where
  magic : BootMagic
  swap_type : Nat
  copy_done : BootFlag
  image_ok : BootFlag
deriving DecidableEq

/-- Fields of a flash-area descriptor the core reads: device id, byte
offset of the slot on the device, and the slot size. -/
structure FlashArea where
  fa_device_id : Nat
  fa_off : Nat
  fa_size : Nat
deriving DecidableEq

/-- Number of slots per image: primary (0) and secondary (1). -/
def BOOT_NUM_SLOTS : Nat := 2

/-- Modelled from the spec: the `BOOT_SLOT_NONE` sentinel meaning "no
slot chosen"; its definition lives in a bootutil header that is not
among the provided sources. It is a `uint32_t` value distinct from
every real slot index (`UINT32_MAX`). -/
def BOOT_SLOT_NONE : Nat := 4294967295

/-- Modelled from the spec: the `IMAGE_F_ROM_FIXED` bit of the header
flags word (defined in `image.h`, not among the provided sources; the
platform's documented position is `0x100`). Only which bit it is, not
its value, matters to the model. -/
def IMAGE_F_ROM_FIXED : Nat := 256

/-- Modelled from the spec: mcuboot error code `BOOT_EFLASH` (header not
among the provided sources); only its nonzero-ness matters. -/
def BOOT_EFLASH : Int := 1

/-- Modelled from the spec: mcuboot error code `BOOT_EBADIMAGE`. -/
def BOOT_EBADIMAGE : Int := 3

/-- Modelled from the spec: mcuboot error code `BOOT_EBADARGS`. -/
def BOOT_EBADARGS : Int := 7

/-- Modelled from the spec: on-flash size of an image-dependency TLV
body, `image_id(1) + pad(3) + image_version(8) = 12` bytes
(`sizeof(struct image_dependency)`). -/
def DEP_TLV_SIZE : Nat := 12

/-- Modelled from the spec: `boot_compare_version` is defined in
`loader.c`, which is not among the provided sources (declared in
`loader_priv.h`). Total lexicographic order over
`(major, minor, revision, build)`; returns `-1`, `0`, or `+1`, and all
four fields participate. -/
def boot_compare_version (ver1 ver2 : ImageVersion) : Int :=
  if ver1.iv_major > ver2.iv_major then 1
  else if ver1.iv_major < ver2.iv_major then -1
  else if ver1.iv_minor > ver2.iv_minor then 1
  else if ver1.iv_minor < ver2.iv_minor then -1
  else if ver1.iv_revision > ver2.iv_revision then 1
  else if ver1.iv_revision < ver2.iv_revision then -1
  else if ver1.iv_build_num > ver2.iv_build_num then 1
  else if ver1.iv_build_num < ver2.iv_build_num then -1
  else 0

/-- Observable behaviour of one `boot_select_or_erase` call
(`loader_xip_ram_common.c:189`): the returned `rc`, the scramble issued
against the slot (offset and length), the attempted `copy_done` write
and its outcome (`none` when no write was attempted), and the swap
state recorded into `slot_usage`. -/
structure SelectOrEraseResult where
  rc : Int
  scrambled : Option (Nat × Nat)
  copy_done_write : Option Bool
  recorded : BootSwapState
deriving DecidableEq

/-- `boot_select_or_erase` (`loader_xip_ram_common.c:189`). `sw` is the
trailer state read by `boot_read_swap_state` (the code asserts that the
read succeeds), `slot_size` is `flash_area_get_size(fap)`, and
`write_ok` tells whether a `boot_write_copy_done` attempt would
succeed. A failed `copy_done` write is logged and `rc` is forced back
to 0 (`loader_xip_ram_common.c:237`). -/
def boot_select_or_erase (sw : BootSwapState) (slot_size : Nat)
    (write_ok : Bool) : SelectOrEraseResult :=
  if sw.magic ≠ BootMagic.good ∨
     (sw.copy_done = BootFlag.set ∧ sw.image_ok ≠ BootFlag.set) then
    { rc := -1, scrambled := some (0, slot_size), copy_done_write := none,
      recorded := sw }
  else if sw.copy_done ≠ BootFlag.set then
    { rc := 0, scrambled := none, copy_done_write := some write_ok,
      recorded := sw }
  else
    { rc := 0, scrambled := none, copy_done_write := none, recorded := sw }

/-- Observable behaviour of `boot_update_hw_rollback_protection_xip_ram`:
the returned `rc`, and whether the security-counter update and lock
services were invoked. -/
structure RollbackResult where
  rc : Int
  called_update : Bool
  called_lock : Bool
deriving DecidableEq

/-- `boot_update_hw_rollback_protection_xip_ram`
(`loader_xip_ram_common.c:427`). `hw_prot` mirrors
`MCUBOOT_HW_ROLLBACK_PROT`, `xip_revert` mirrors
`MCUBOOT_DIRECT_XIP && MCUBOOT_DIRECT_XIP_REVERT`, `lock_enabled`
mirrors `MCUBOOT_HW_ROLLBACK_PROT_LOCK`. `image_ok` is the recorded
`swap_state.image_ok` of the current image's active slot, and
`update_rc` / `lock_rc` are the results the platform security-counter
services would return. -/
def boot_update_hw_rollback_protection_xip_ram
    (hw_prot xip_revert lock_enabled : Bool) (image_ok : BootFlag)
    (update_rc lock_rc : Int) : RollbackResult :=
  if ¬ hw_prot then
    { rc := 0, called_update := false, called_lock := false }
  else if xip_revert ∧ image_ok ≠ BootFlag.set then
    { rc := 0, called_update := false, called_lock := false }
  else if update_rc ≠ 0 then
    { rc := update_rc, called_update := true, called_lock := false }
  else if lock_enabled then
    if lock_rc ≠ 0 then
      { rc := lock_rc, called_update := true, called_lock := true }
    else
      { rc := 0, called_update := true, called_lock := true }
  else
    { rc := 0, called_update := true, called_lock := false }

/-- Per-image slot-usage record (`struct boot_slot_usage_t`). -/
structure BootSlotUsage where
  slot_available : Nat → Bool
  active_slot : Nat
  swap_state : BootSwapState

/-- The parts of `struct boot_loader_state` the XIP/RAM core reads and
writes: the compile-time image count, the image mask, the slot-usage
records, the cached headers `imgs[image][slot].hdr`, and the flash
areas per image and slot. -/
structure BootLoaderState where
  num_images : Nat
  img_mask : Nat → Bool
  slot_usage : Nat → BootSlotUsage
  imgs : Nat → Nat → ImageHeader
  areas : Nat → Nat → FlashArea

/-- `find_slot_with_highest_version`, inner loop over the slots
(`loader_xip_ram_common.c:127`): `cand` is `candidate_slot`. A slot
replaces the candidate only when `boot_compare_version` returns 1
(strictly greater), so earlier (lower) slots win ties. -/
def findSlotGo (st : BootLoaderState) (img : Nat) :
    List Nat → Nat → Nat
  | [], cand => cand
  | s :: rest, cand =>
    if (st.slot_usage img).slot_available s then
      if cand = BOOT_SLOT_NONE then
        findSlotGo st img rest s
      else if boot_compare_version (st.imgs img s).ih_ver
                (st.imgs img cand).ih_ver = 1 then
        findSlotGo st img rest s
      else
        findSlotGo st img rest cand
    else
      findSlotGo st img rest cand

/-- `find_slot_with_highest_version` (`loader_xip_ram_common.c:120`):
returns `BOOT_SLOT_NONE` if no available slot is found, otherwise the
number of the found slot. -/
def find_slot_with_highest_version (st : BootLoaderState) (img : Nat) : Nat :=
  findSlotGo st img (List.range BOOT_NUM_SLOTS) BOOT_SLOT_NONE

/-- `boot_rom_address_check` (`loader_direct_xip.c:86`): true (reject)
when the header's `IMAGE_F_ROM_FIXED` flag is set but `ih_load_addr`
differs from the slot's flash offset. -/
def boot_rom_address_check (st : BootLoaderState) (img : Nat) : Bool :=
  let active := (st.slot_usage img).active_slot
  let hdr := st.imgs img active
  let f_off := (st.areas img active).fa_off
  decide (Nat.land hdr.ih_flags IMAGE_F_ROM_FIXED ≠ 0 ∧ hdr.ih_load_addr ≠ f_off)

/-- Body of one image-dependency TLV (`struct image_dependency`). -/
structure ImageDependency where
  image_id : Nat
  image_min_version : ImageVersion
deriving DecidableEq

/-- One entry produced by the TLV iterator for tag
`IMAGE_TLV_DEPENDENCY`: the reported length, whether the
`LOAD_IMAGE_DATA` read of the body succeeds, and the decoded body. -/
structure RawTlv where
  len : Nat
  read_ok : Bool
  dep : ImageDependency
deriving DecidableEq

/-- The slot index `dep_slot` used for the dependency target's header
lookup (`loader_xip_ram_common.c:296`): the target image's current
`active_slot`, taken with no mask check and no check that a slot is
committed at all. -/
def dep_slot_used (st : BootLoaderState) (dep : ImageDependency) : Nat :=
  (st.slot_usage dep.image_id).active_slot

/-- `boot_verify_slot_dependency_xip_ram`
(`loader_xip_ram_common.c:288`): compares the version found in the
cached header `imgs[dep->image_id][dep_slot]` against the dependency's
minimum version; nonnegative comparison means satisfied (`rc = 0`). -/
def boot_verify_slot_dependency_xip_ram (st : BootLoaderState)
    (dep : ImageDependency) : Int :=
  let dep_version := (st.imgs dep.image_id (dep_slot_used st dep)).ih_ver
  let rc := boot_compare_version dep_version dep.image_min_version
  if 0 ≤ rc then 0 else rc

/-- While loop of `boot_verify_slot_dependencies_xip_ram`
(`loader_xip_ram_common.c:339`): walk the image's dependency TLVs; a
wrong length is `BOOT_EBADIMAGE`, a failed body read is `BOOT_EFLASH`,
an out-of-range `image_id` is `BOOT_EBADARGS`, an unsatisfied
dependency propagates its nonzero `rc`; the end of the stream yields
0. -/
def verifySlotDepsGo (st : BootLoaderState) : List RawTlv → Int
  | [] => 0
  | t :: rest =>
    if t.len ≠ DEP_TLV_SIZE then BOOT_EBADIMAGE
    else if ¬ t.read_ok then BOOT_EFLASH
    else if st.num_images ≤ t.dep.image_id then BOOT_EBADARGS
    else if boot_verify_slot_dependency_xip_ram st t.dep ≠ 0 then
      boot_verify_slot_dependency_xip_ram st t.dep
    else verifySlotDepsGo st rest

/-- `boot_verify_slot_dependencies_xip_ram`
(`loader_xip_ram_common.c:319`): `deps img slot` is the dependency TLV
stream the iterator yields for that slot. -/
def boot_verify_slot_dependencies_xip_ram (deps : Nat → Nat → List RawTlv)
    (st : BootLoaderState) (img slot : Nat) : Int :=
  verifySlotDepsGo st (deps img slot)

/-- Observable side effects of a loader run, in program order: slot
commits (`active_slot ← slot`), availability clears
(`slot_available[slot] ← false`), slot scrambles, `copy_done` writes,
and RAM/flash image removals. -/
inductive Ev where
  | commit (img slot : Nat)
  | clear (img slot : Nat)
  | scramble (img slot off len : Nat)
  | writeCopyDone (img slot : Nat) (ok : Bool)
  | removeFromSram (img : Nat)
  | removeFromFlash (img slot : Nat)
deriving DecidableEq

/-- Write `slot_usage[img].active_slot ← slot`. -/
def setActive (st : BootLoaderState) (img slot : Nat) : BootLoaderState :=
  { st with slot_usage := fun i =>
      if i = img then
        { st.slot_usage img with active_slot := slot }
      else st.slot_usage i }

/-- Write `slot_usage[img].slot_available[slot] ← false`. -/
def clearAvail (st : BootLoaderState) (img slot : Nat) : BootLoaderState :=
  { st with slot_usage := fun i =>
      if i = img then
        { st.slot_usage img with slot_available := fun s =>
            if s = slot then false else (st.slot_usage img).slot_available s }
      else st.slot_usage i }

/-- Write `slot_usage[img].swap_state ← sw` (done inside
`boot_select_or_erase` via `boot_read_swap_state`). -/
def setSwap (st : BootLoaderState) (img : Nat) (sw : BootSwapState) :
    BootLoaderState :=
  { st with slot_usage := fun i =>
      if i = img then
        { st.slot_usage img with swap_state := sw }
      else st.slot_usage i }

/-- The slot-rejection pair of writes that every admissibility failure
performs (for instance `loader_direct_xip.c:162`):
`slot_available[active_slot] ← false; active_slot ← BOOT_SLOT_NONE`. -/
def rejectSlot (st : BootLoaderState) (img slot : Nat) : BootLoaderState :=
  setActive (clearAvail st img slot) img BOOT_SLOT_NONE

/-- External collaborators of the core, fixed for one boot: flash-area
opening, the header reader, the find-slot hook (`none` stands for
`BOOT_HOOK_REGULAR`), the trailer reader, the `copy_done` writer, the
signature validator, the SRAM loader, the TLV iterator output, the
security-counter services, and the shared-data injector. -/
structure Externals where
  open_ok : Bool
  read_headers_ok : Nat → Bool
  headers : Nat → Nat → ImageHeader
  header_valid : Nat → Nat → Bool
  hook : Nat → Option Nat
  trailer : Nat → Nat → BootSwapState
  write_copy_done_ok : Nat → Nat → Bool
  validate_ok : Nat → Nat → Bool
  load_to_sram_ok : Nat → Nat → Bool
  deps : Nat → Nat → List RawTlv
  counter_update_ok : Nat → Bool
  counter_lock_ok : Nat → Bool
  shared_data_ok : Nat → Nat → Bool

/-- Compile-time configuration: `revert` mirrors
`MCUBOOT_DIRECT_XIP_REVERT` / `MCUBOOT_RAM_LOAD_REVERT`,
`hw_rollback_prot` mirrors `MCUBOOT_HW_ROLLBACK_PROT`, `rollback_lock`
mirrors `MCUBOOT_HW_ROLLBACK_PROT_LOCK`. -/
structure Config where
  revert : Bool
  hw_rollback_prot : Bool
  rollback_lock : Bool

/-- Result of `boot_load_and_validate_images_xip` / `_ram`, or of the
per-image selection loop: `FIH_FAILURE` return, successful break, or
model fuel exhaustion (the C loop would still be running). -/
inductive SelOutcome where
  | fail (st : BootLoaderState) (tr : List Ev)
  | done (st : BootLoaderState) (tr : List Ev)
  | outOfFuel (st : BootLoaderState) (tr : List Ev)

/-- Prepend already-emitted events to an outcome's trace. -/
def withTr (evs : List Ev) : SelOutcome → SelOutcome
  | .fail st tr => .fail st (evs ++ tr)
  | .done st tr => .done st (evs ++ tr)
  | .outOfFuel st tr => .outOfFuel st (evs ++ tr)

/-- Final state of a selection outcome. -/
def selState : SelOutcome → BootLoaderState
  | .fail st _ => st
  | .done st _ => st
  | .outOfFuel st _ => st

/-- Event trace of a selection outcome. -/
def selTrace : SelOutcome → List Ev
  | .fail _ tr => tr
  | .done _ tr => tr
  | .outOfFuel _ tr => tr

/-- Whether a selection outcome ran out of model fuel. -/
def selIsOut : SelOutcome → Bool
  | .outOfFuel _ _ => true
  | _ => false

/-- Events of the revert/erase gate: the scramble (if any) and the
`copy_done` write attempt (if any). -/
def gateEvs (img slot : Nat) (r : SelectOrEraseResult) : List Ev :=
  (match r.scrambled with
   | some (off, len) => [Ev.scramble img slot off len]
   | none => []) ++
  (match r.copy_done_write with
   | some ok => [Ev.writeCopyDone img slot ok]
   | none => [])

/-- The candidate slot chosen at the top of the selection loop
(`loader_direct_xip.c:137`): the find-slot hook's answer, or
`find_slot_with_highest_version` when the hook answers
`BOOT_HOOK_REGULAR`. -/
def candidateSlot (ext : Externals) (st : BootLoaderState) (img : Nat) : Nat :=
  match ext.hook img with
  | none => find_slot_with_highest_version st img
  | some s => s

/-- The `while (true)` selection loop of
`boot_load_and_validate_images_xip` for one image
(`loader_direct_xip.c:129`), DIRECT_XIP build: already-active break,
candidate choice, `FIH_FAILURE` when no candidate, tentative commit,
masked-image skip, ROM-address filter, revert/erase gate (compiled in
when `cfg.revert`), signature validation, and the rejection paths that
clear availability and restart the scan. -/
def selectLoopXip (cfg : Config) (ext : Externals) (img : Nat) :
    Nat → BootLoaderState → SelOutcome
  | 0, st => .outOfFuel st []
  | Nat.succ fuel, st =>
    if (st.slot_usage img).active_slot ≠ BOOT_SLOT_NONE then .done st []
    else
      let slot := candidateSlot ext st img
      if slot = BOOT_SLOT_NONE then .fail st []
      else
        let stc := setActive st img slot
        if 1 < stc.num_images ∧ stc.img_mask img then
          withTr [Ev.commit img slot] (selectLoopXip cfg ext img fuel stc)
        else if boot_rom_address_check stc img then
          withTr [Ev.commit img slot, Ev.clear img slot]
            (selectLoopXip cfg ext img fuel (rejectSlot stc img slot))
        else if cfg.revert then
          let r := boot_select_or_erase (ext.trailer img slot)
                     ((st.areas img slot).fa_size)
                     (ext.write_copy_done_ok img slot)
          let str := setSwap stc img r.recorded
          if r.rc ≠ 0 then
            withTr (Ev.commit img slot :: gateEvs img slot r ++ [Ev.clear img slot])
              (selectLoopXip cfg ext img fuel (rejectSlot str img slot))
          else if ext.validate_ok img slot then
            .done str (Ev.commit img slot :: gateEvs img slot r)
          else
            withTr (Ev.commit img slot :: gateEvs img slot r ++ [Ev.clear img slot])
              (selectLoopXip cfg ext img fuel (rejectSlot str img slot))
        else
          if ext.validate_ok img slot then .done stc [Ev.commit img slot]
          else
            withTr [Ev.commit img slot, Ev.clear img slot]
              (selectLoopXip cfg ext img fuel (rejectSlot stc img slot))

/-- The `while (true)` selection loop of
`boot_load_and_validate_images_ram` for one image
(`loader_ram_load.c:100`), RAM_LOAD build: like the XIP loop but with
no ROM-address filter, a load-to-SRAM step whose failure scrubs the
flash copy (`boot_remove_image_from_flash`), and a validation failure
path that removes the image from SRAM. -/
def selectLoopRam (cfg : Config) (ext : Externals) (img : Nat) :
    Nat → BootLoaderState → SelOutcome
  | 0, st => .outOfFuel st []
  | Nat.succ fuel, st =>
    if (st.slot_usage img).active_slot ≠ BOOT_SLOT_NONE then .done st []
    else
      let slot := candidateSlot ext st img
      if slot = BOOT_SLOT_NONE then .fail st []
      else
        let stc := setActive st img slot
        if 1 < stc.num_images ∧ stc.img_mask img then
          withTr [Ev.commit img slot] (selectLoopRam cfg ext img fuel stc)
        else if cfg.revert then
          let r := boot_select_or_erase (ext.trailer img slot)
                     ((st.areas img slot).fa_size)
                     (ext.write_copy_done_ok img slot)
          let str := setSwap stc img r.recorded
          if r.rc ≠ 0 then
            withTr (Ev.commit img slot :: gateEvs img slot r ++ [Ev.clear img slot])
              (selectLoopRam cfg ext img fuel (rejectSlot str img slot))
          else if ¬ ext.load_to_sram_ok img slot then
            withTr (Ev.commit img slot :: gateEvs img slot r ++
                    [Ev.removeFromFlash img slot, Ev.clear img slot])
              (selectLoopRam cfg ext img fuel (rejectSlot str img slot))
          else if ext.validate_ok img slot then
            .done str (Ev.commit img slot :: gateEvs img slot r)
          else
            withTr (Ev.commit img slot :: gateEvs img slot r ++
                    [Ev.removeFromSram img, Ev.clear img slot])
              (selectLoopRam cfg ext img fuel (rejectSlot str img slot))
        else
          if ¬ ext.load_to_sram_ok img slot then
            withTr [Ev.commit img slot, Ev.removeFromFlash img slot,
                    Ev.clear img slot]
              (selectLoopRam cfg ext img fuel (rejectSlot stc img slot))
          else if ext.validate_ok img slot then
            .done stc [Ev.commit img slot]
          else
            withTr [Ev.commit img slot, Ev.removeFromSram img,
                    Ev.clear img slot]
              (selectLoopRam cfg ext img fuel (rejectSlot stc img slot))

/-- `IMAGES_ITER` of `boot_load_and_validate_images_xip`
(`loader_direct_xip.c:125`): run the per-image selection loop over the
given images, threading the state and concatenating traces. -/
def loadImagesGoXip (cfg : Config) (ext : Externals) (innerFuel : Nat) :
    BootLoaderState → List Nat → SelOutcome
  | st, [] => .done st []
  | st, i :: rest =>
    match selectLoopXip cfg ext i innerFuel st with
    | .fail st' tr => .fail st' tr
    | .outOfFuel st' tr => .outOfFuel st' tr
    | .done st' tr => withTr tr (loadImagesGoXip cfg ext innerFuel st' rest)

/-- `boot_load_and_validate_images_xip` (`loader_direct_xip.c:118`). -/
def boot_load_and_validate_images_xip (cfg : Config) (ext : Externals)
    (innerFuel : Nat) (st : BootLoaderState) : SelOutcome :=
  loadImagesGoXip cfg ext innerFuel st (List.range st.num_images)

/-- `IMAGES_ITER` of `boot_load_and_validate_images_ram`
(`loader_ram_load.c:96`). -/
def loadImagesGoRam (cfg : Config) (ext : Externals) (innerFuel : Nat) :
    BootLoaderState → List Nat → SelOutcome
  | st, [] => .done st []
  | st, i :: rest =>
    match selectLoopRam cfg ext i innerFuel st with
    | .fail st' tr => .fail st' tr
    | .outOfFuel st' tr => .outOfFuel st' tr
    | .done st' tr => withTr tr (loadImagesGoRam cfg ext innerFuel st' rest)

/-- `boot_load_and_validate_images_ram` (`loader_ram_load.c:89`). -/
def boot_load_and_validate_images_ram (cfg : Config) (ext : Externals)
    (innerFuel : Nat) (st : BootLoaderState) : SelOutcome :=
  loadImagesGoRam cfg ext innerFuel st (List.range st.num_images)

/-- `IMAGES_ITER` of `boot_verify_dependencies_xip_ram`
(`loader_xip_ram_common.c:395`) with the running `rc` accumulator
(initially -1): masked images are skipped without touching `rc`; the
first image whose active slot fails its dependency check is removed
from SRAM (RAM_LOAD builds), its slot is cleared, `active_slot` is
reset, and the nonzero `rc` is returned at once. -/
def verifyDepsGo (deps : Nat → Nat → List RawTlv) (ram_load : Bool)
    (st : BootLoaderState) :
    List Nat → Int → Int × BootLoaderState × List Ev
  | [], rc => (rc, st, [])
  | i :: rest, rc =>
    if st.img_mask i then verifyDepsGo deps ram_load st rest rc
    else
      let active := (st.slot_usage i).active_slot
      let rc2 := boot_verify_slot_dependencies_xip_ram deps st i active
      if rc2 ≠ 0 then
        (rc2, rejectSlot st i active,
         (if ram_load then [Ev.removeFromSram i] else []) ++ [Ev.clear i active])
      else verifyDepsGo deps ram_load st rest rc2

/-- `boot_verify_dependencies_xip_ram` (`loader_xip_ram_common.c:390`). -/
def boot_verify_dependencies_xip_ram (deps : Nat → Nat → List RawTlv)
    (ram_load : Bool) (st : BootLoaderState) :
    Int × BootLoaderState × List Ev :=
  verifyDepsGo deps ram_load st (List.range st.num_images) (-1)

/-- The per-image scan step of `boot_get_slot_usage`
(`loader_xip_ram_common.c:90`): cache the headers read from flash, set
`slot_available[slot]` from the per-slot validity check for both
slots, and reset `active_slot` to `BOOT_SLOT_NONE`. -/
def scanImage (st : BootLoaderState) (img : Nat)
    (hdrs : Nat → ImageHeader) (valid : Nat → Bool) : BootLoaderState :=
  { st with
    imgs := fun i s => if i = img then hdrs s else st.imgs i s,
    slot_usage := fun i =>
      if i = img then
        { slot_available := fun s =>
            if s < BOOT_NUM_SLOTS then valid s
            else (st.slot_usage img).slot_available s,
          active_slot := BOOT_SLOT_NONE,
          swap_state := (st.slot_usage img).swap_state }
      else st.slot_usage i }

/-- `IMAGES_ITER` of `boot_get_slot_usage`
(`loader_xip_ram_common.c:76`): masked images are skipped (multi-image
builds); a header-read failure aborts with its nonzero `rc`. -/
def getSlotUsageGo (ext : Externals) :
    BootLoaderState → List Nat → Int × BootLoaderState
  | st, [] => (0, st)
  | st, i :: rest =>
    if 1 < st.num_images ∧ st.img_mask i then getSlotUsageGo ext st rest
    else if ¬ ext.read_headers_ok i then (1, st)
    else getSlotUsageGo ext (scanImage st i (ext.headers i) (ext.header_valid i)) rest

/-- `boot_get_slot_usage` (`loader_xip_ram_common.c:70`). -/
def boot_get_slot_usage (ext : Externals) (st : BootLoaderState) :
    Int × BootLoaderState :=
  getSlotUsageGo ext st (List.range st.num_images)

/-- The boot response (`struct boot_rsp`): flash device id, image
offset, and the cached header the caller will jump through. -/
structure BootRsp where
  br_flash_dev_id : Nat
  br_image_off : Nat
  br_hdr : ImageHeader
deriving DecidableEq

/-- The `IMAGES_ITER` scan of `fill_rsp_xip_ram`
(`loader_xip_ram_common.c:260`): walk the image indices and stop at the
first whose mask entry is false. -/
def firstUnmaskedGo (st : BootLoaderState) : List Nat → Option Nat
  | [] => none
  | i :: rest => if st.img_mask i then firstUnmaskedGo st rest else some i

/-- First enabled image: the lowest image index whose mask entry is
false, or `none` when every image is masked. -/
def firstUnmasked (st : BootLoaderState) : Option Nat :=
  firstUnmaskedGo st (List.range st.num_images)

/-- `fill_rsp_xip_ram` (`loader_xip_ram_common.c:253`): in multi-image
builds boot from the first enabled image, returning the response
untouched when every image is masked; single-image builds use image
0 directly. The three response fields come from the active slot's
flash area and cached header. -/
def fill_rsp_xip_ram (st : BootLoaderState) (rsp : BootRsp) : BootRsp :=
  if 1 < st.num_images then
    match firstUnmasked st with
    | none => rsp
    | some i =>
      let a := (st.slot_usage i).active_slot
      { br_flash_dev_id := (st.areas i a).fa_device_id,
        br_image_off := (st.areas i a).fa_off,
        br_hdr := st.imgs i a }
  else
    let a := (st.slot_usage 0).active_slot
    { br_flash_dev_id := (st.areas 0 a).fa_device_id,
      br_image_off := (st.areas 0 a).fa_off,
      br_hdr := st.imgs 0 a }

/-- The post-selection `IMAGES_ITER` of the orchestrators
(`loader_direct_xip.c:239`, `loader_ram_load.c:217`): per enabled
image, the security-counter update (gated in DIRECT_XIP revert builds,
`xip_revert`) and the shared-data injection; the first nonzero `rc`
aborts the boot. -/
def finishGo (cfg : Config) (ext : Externals) (xip_revert : Bool) :
    BootLoaderState → List Nat → Int
  | _, [] => 0
  | st, i :: rest =>
    if 1 < st.num_images ∧ st.img_mask i then finishGo cfg ext xip_revert st rest
    else
      let rb := boot_update_hw_rollback_protection_xip_ram
                  cfg.hw_rollback_prot xip_revert cfg.rollback_lock
                  ((st.slot_usage i).swap_state).image_ok
                  (if ext.counter_update_ok i then 0 else 1)
                  (if ext.counter_lock_ok i then 0 else 1)
      if rb.rc ≠ 0 then rb.rc
      else if ¬ ext.shared_data_ok i ((st.slot_usage i).active_slot) then 1
      else finishGo cfg ext xip_revert st rest

/-- Result of the orchestrator's selection-plus-dependency loop
(`loader_direct_xip.c:218`): clean break, `FIH_FAILURE` from the
selector, or fuel exhaustion (the C loop would still be spinning). -/
inductive LoopOutcome where
  | ok (st : BootLoaderState) (tr : List Ev)
  | bad (st : BootLoaderState) (tr : List Ev)
  | outOfFuel (st : BootLoaderState) (tr : List Ev)

/-- Prepend already-emitted events to a loop outcome's trace. -/
def withTrL (evs : List Ev) : LoopOutcome → LoopOutcome
  | .ok st tr => .ok st (evs ++ tr)
  | .bad st tr => .bad st (evs ++ tr)
  | .outOfFuel st tr => .outOfFuel st (evs ++ tr)

/-- Whether the loop outcome ran out of model fuel. -/
def loopTimedOut : LoopOutcome → Bool
  | .outOfFuel _ _ => true
  | _ => false

/-- Final state of a loop outcome. -/
def loopState : LoopOutcome → BootLoaderState
  | .ok st _ => st
  | .bad st _ => st
  | .outOfFuel st _ => st

/-- The outer dependency-retry loop of `context_boot_go_direct_xip`
(`loader_direct_xip.c:217`): select a slot for every image, then (in
multi-image builds) run the dependency sweep; a nonzero sweep result
loops back to selection, a zero result breaks. -/
def depLoopXip (cfg : Config) (ext : Externals) (innerFuel : Nat) :
    Nat → BootLoaderState → LoopOutcome
  | 0, st => .outOfFuel st []
  | Nat.succ fuel, st =>
    match boot_load_and_validate_images_xip cfg ext innerFuel st with
    | .fail st' tr => .bad st' tr
    | .outOfFuel st' tr => .outOfFuel st' tr
    | .done st' tr =>
      if 1 < st'.num_images then
        let d := boot_verify_dependencies_xip_ram ext.deps false st'
        if d.1 ≠ 0 then
          withTrL (tr ++ d.2.2) (depLoopXip cfg ext innerFuel fuel d.2.1)
        else .ok d.2.1 (tr ++ d.2.2)
      else .ok st' tr

/-- The outer dependency-retry loop of `context_boot_go_ram_load`
(`loader_ram_load.c:195`). -/
def depLoopRam (cfg : Config) (ext : Externals) (innerFuel : Nat) :
    Nat → BootLoaderState → LoopOutcome
  | 0, st => .outOfFuel st []
  | Nat.succ fuel, st =>
    match boot_load_and_validate_images_ram cfg ext innerFuel st with
    | .fail st' tr => .bad st' tr
    | .outOfFuel st' tr => .outOfFuel st' tr
    | .done st' tr =>
      if 1 < st'.num_images then
        let d := boot_verify_dependencies_xip_ram ext.deps true st'
        if d.1 ≠ 0 then
          withTrL (tr ++ d.2.2) (depLoopRam cfg ext innerFuel fuel d.2.1)
        else .ok d.2.1 (tr ++ d.2.2)
      else .ok st' tr

/-- Result of a whole `context_boot_go_*` run: `FIH_SUCCESS` with the
final state and (possibly rewritten) response, `FIH_FAILURE` with the
response as the caller left it, or model fuel exhaustion. -/
inductive BootOutcome where
  | success (st : BootLoaderState) (rsp : BootRsp) (tr : List Ev)
  | failure (st : BootLoaderState) (rsp : BootRsp) (tr : List Ev)
  | outOfFuel (st : BootLoaderState) (tr : List Ev)

/-- `context_boot_go_direct_xip` (`loader_direct_xip.c:202`): open the
areas, scan the headers, run the selection/dependency loop, update
rollback protection and shared data per enabled image, and fill the
response only on the all-successful path. Every failure path returns
with the caller's `rsp` untouched. -/
def context_boot_go_direct_xip (cfg : Config) (ext : Externals)
    (innerFuel outerFuel : Nat) (st : BootLoaderState) (rsp : BootRsp) :
    BootOutcome :=
  if ¬ ext.open_ok then .failure st rsp []
  else
    let scan := boot_get_slot_usage ext st
    if scan.1 ≠ 0 then .failure scan.2 rsp []
    else
      match depLoopXip cfg ext innerFuel outerFuel scan.2 with
      | .outOfFuel st2 tr => .outOfFuel st2 tr
      | .bad st2 tr => .failure st2 rsp tr
      | .ok st2 tr =>
        if finishGo cfg ext cfg.revert st2 (List.range st2.num_images) ≠ 0 then
          .failure st2 rsp tr
        else
          .success st2 (fill_rsp_xip_ram st2 rsp) tr

/-- `context_boot_go_ram_load` (`loader_ram_load.c:179`): like the
DIRECT_XIP orchestrator but with the RAM_LOAD selector and no
DIRECT_XIP revert gating of the security counter. -/
def context_boot_go_ram_load (cfg : Config) (ext : Externals)
    (innerFuel outerFuel : Nat) (st : BootLoaderState) (rsp : BootRsp) :
    BootOutcome :=
  if ¬ ext.open_ok then .failure st rsp []
  else
    let scan := boot_get_slot_usage ext st
    if scan.1 ≠ 0 then .failure scan.2 rsp []
    else
      match depLoopRam cfg ext innerFuel outerFuel scan.2 with
      | .outOfFuel st2 tr => .outOfFuel st2 tr
      | .bad st2 tr => .failure st2 rsp tr
      | .ok st2 tr =>
        if finishGo cfg ext false st2 (List.range st2.num_images) ≠ 0 then
          .failure st2 rsp tr
        else
          .success st2 (fill_rsp_xip_ram st2 rsp) tr

/-- Event trace of a loop outcome. -/
def loopTrace : LoopOutcome → List Ev
  | .ok _ tr => tr
  | .bad _ tr => tr
  | .outOfFuel _ tr => tr

/-- Availability only decreases from `st` to `st'`: any entry still true
afterwards was true before (equivalently, entries only move
true → false). -/
def AvailLe (st st' : BootLoaderState) : Prop :=
  ∀ i s, (st'.slot_usage i).slot_available s = true →
    (st.slot_usage i).slot_available s = true

/-- The run did not touch the image count, the mask, the cached headers,
or the flash areas. -/
def FrameOk (st st' : BootLoaderState) : Prop :=
  st'.num_images = st.num_images ∧ st'.img_mask = st.img_mask ∧
  st'.imgs = st.imgs ∧ st'.areas = st.areas

/-- A trace never commits a slot at or after the moment it was cleared:
after every `clear i s` event, no later `commit i s` appears. -/
def NoCommitAfterClear : List Ev → Prop
  | [] => True
  | Ev.clear i s :: rest => Ev.commit i s ∉ rest ∧ NoCommitAfterClear rest
  | _ :: rest => NoCommitAfterClear rest

/-- A well-behaved run from `st` to `st'` with trace `tr`: availability
is monotone, no slot that was already unavailable is ever committed,
every cleared slot ends (and stays) unavailable, and no slot is
committed after being cleared. -/
def GoodRun (st st' : BootLoaderState) (tr : List Ev) : Prop :=
  AvailLe st st' ∧
  (∀ i s, (st.slot_usage i).slot_available s = false → Ev.commit i s ∉ tr) ∧
  (∀ i s, Ev.clear i s ∈ tr → (st'.slot_usage i).slot_available s = false) ∧
  NoCommitAfterClear tr

/-- Whether a selection outcome is a successful break. -/
def selIsDone : SelOutcome → Bool
  | .done _ _ => true
  | _ => false

/-- Every image's `active_slot` is either `BOOT_SLOT_NONE` or a real
slot index whose availability flag is set. -/
def ActivesOk (st : BootLoaderState) : Prop :=
  ∀ i, i < st.num_images →
    (st.slot_usage i).active_slot = BOOT_SLOT_NONE ∨
    ((st.slot_usage i).active_slot < BOOT_NUM_SLOTS ∧
     (st.slot_usage i).slot_available ((st.slot_usage i).active_slot) = true)

/-- Every image has a committed active slot. -/
def AllCommitted (st : BootLoaderState) : Prop :=
  ∀ i, i < st.num_images → (st.slot_usage i).active_slot ≠ BOOT_SLOT_NONE

/-- The find-slot hook answers `BOOT_HOOK_REGULAR` for every image, so
candidates always come from `find_slot_with_highest_version`. -/
def RegularHook (ext : Externals) : Prop := ∀ i, ext.hook i = none

/-- No image is masked. -/
def NoMask (st : BootLoaderState) : Prop :=
  ∀ i, i < st.num_images → st.img_mask i = false

/-- Number of available slots of one image (out of the two slots). -/
def availCount (st : BootLoaderState) (i : Nat) : Nat :=
  (if (st.slot_usage i).slot_available 0 then 1 else 0) +
  (if (st.slot_usage i).slot_available 1 then 1 else 0)

/-- Total number of available `(image, slot)` entries,
`Σ slot_available[i][s]`. -/
def availTotal (st : BootLoaderState) : Nat :=
  ∑ i ∈ Finset.range st.num_images, availCount st i

/-- Exhibit: configuration with revert, rollback protection and counter
lock all compiled out. -/
def cfgPlain : Config := ⟨false, false, false⟩

/-- Exhibit: an all-erased trailer state. -/
def swUnset : BootSwapState := ⟨BootMagic.unset, 0, BootFlag.unset, BootFlag.unset⟩

/-- Exhibit: a header with no flags, load address 0 and version 1.0.0+0. -/
def hdrPlain : ImageHeader := ⟨0, 0, ⟨1, 0, 0, 0⟩⟩

/-- Exhibit: a slot-usage record with both slots unavailable and no
active slot. -/
def usageEmpty : BootSlotUsage := ⟨fun _ => false, BOOT_SLOT_NONE, swUnset⟩

/-- Exhibit: benign externals — everything opens, reads, validates and
loads; the hook answers `BOOT_HOOK_REGULAR`; no dependency TLVs. -/
def extBase : Externals :=
  { open_ok := true
    read_headers_ok := fun _ => true
    headers := fun _ _ => hdrPlain
    header_valid := fun _ _ => true
    hook := fun _ => none
    trailer := fun _ _ => swUnset
    write_copy_done_ok := fun _ _ => true
    validate_ok := fun _ _ => true
    load_to_sram_ok := fun _ _ => true
    deps := fun _ _ => []
    counter_update_ok := fun _ => true
    counter_lock_ok := fun _ => true
    shared_data_ok := fun _ _ => true }

/-- Exhibit: an `n`-image pre-scan state with nothing available, no
masks, and distinct flash areas per slot. -/
def stBase (n : Nat) : BootLoaderState :=
  { num_images := n
    img_mask := fun _ => false
    slot_usage := fun _ => usageEmpty
    imgs := fun _ _ => hdrPlain
    areas := fun i s => ⟨1, 65536 * (2 * i + s + 1), 65536⟩ }

/-- Exhibit: configuration with the revert feature compiled in. -/
def cfgRevert : Config := ⟨true, false, false⟩

/-- Exhibit: an `n`-image post-scan state with both slots of every
image available. -/
def stAvail (n : Nat) : BootLoaderState :=
  { stBase n with
    slot_usage := fun _ =>
      ⟨fun s => decide (s < BOOT_NUM_SLOTS), BOOT_SLOT_NONE, swUnset⟩ }

/-- Exhibit: externals whose every trailer reads
`(good, copy_done = set, image_ok = unset)` — a selected-but-never-
confirmed image. -/
def extStale : Externals :=
  { extBase with trailer := fun _ _ =>
      ⟨BootMagic.good, 0, BootFlag.set, BootFlag.unset⟩ }

/-- Exhibit: externals whose every load-to-SRAM attempt fails. -/
def extLoadFail : Externals :=
  { extBase with load_to_sram_ok := fun _ _ => false }

/-- Exhibit: externals whose find-slot hook always resolves slot 0 and
whose header-validity scan reports every slot invalid. -/
def extHookZero : Externals :=
  { extBase with hook := fun _ => some 0,
                 header_valid := fun _ _ => false }

/-- Exhibit: a two-image state with every image masked and both slots
of every image available. -/
def stAllMasked : BootLoaderState :=
  { stAvail 2 with img_mask := fun _ => true }

/-- Exhibit: a two-image post-selection state with both slots of every
image available and slot 0 committed for every image. -/
def stTwoCommitted : BootLoaderState :=
  { stAvail 2 with
    slot_usage := fun _ => ⟨fun s => decide (s < BOOT_NUM_SLOTS), 0, swUnset⟩ }

/-- Exhibit: a dependency TLV stream in which image 0's slot 0 requires
image 1 at version 2.0.0 or newer. -/
def depsNeedTwo : Nat → Nat → List RawTlv := fun i s =>
  if i = 0 ∧ s = 0 then [⟨DEP_TLV_SIZE, true, ⟨1, ⟨2, 0, 0, 0⟩⟩⟩] else []

/-! ## Projections of the state writes -/

@[simp] lemma setActive_num_images (st : BootLoaderState) (i v : Nat) :
    (setActive st i v).num_images = st.num_images := rfl

@[simp] lemma setActive_img_mask (st : BootLoaderState) (i v : Nat) :
    (setActive st i v).img_mask = st.img_mask := rfl

@[simp] lemma setActive_imgs (st : BootLoaderState) (i v : Nat) :
    (setActive st i v).imgs = st.imgs := rfl

@[simp] lemma setActive_areas (st : BootLoaderState) (i v : Nat) :
    (setActive st i v).areas = st.areas := rfl

@[simp] lemma clearAvail_num_images (st : BootLoaderState) (i s : Nat) :
    (clearAvail st i s).num_images = st.num_images := rfl

@[simp] lemma clearAvail_img_mask (st : BootLoaderState) (i s : Nat) :
    (clearAvail st i s).img_mask = st.img_mask := rfl

@[simp] lemma clearAvail_imgs (st : BootLoaderState) (i s : Nat) :
    (clearAvail st i s).imgs = st.imgs := rfl

@[simp] lemma clearAvail_areas (st : BootLoaderState) (i s : Nat) :
    (clearAvail st i s).areas = st.areas := rfl

@[simp] lemma setSwap_num_images (st : BootLoaderState) (i : Nat) (sw : BootSwapState) :
    (setSwap st i sw).num_images = st.num_images := rfl

@[simp] lemma setSwap_img_mask (st : BootLoaderState) (i : Nat) (sw : BootSwapState) :
    (setSwap st i sw).img_mask = st.img_mask := rfl

@[simp] lemma setSwap_imgs (st : BootLoaderState) (i : Nat) (sw : BootSwapState) :
    (setSwap st i sw).imgs = st.imgs := rfl

@[simp] lemma setSwap_areas (st : BootLoaderState) (i : Nat) (sw : BootSwapState) :
    (setSwap st i sw).areas = st.areas := rfl

@[simp] lemma rejectSlot_num_images (st : BootLoaderState) (i s : Nat) :
    (rejectSlot st i s).num_images = st.num_images := rfl

@[simp] lemma rejectSlot_img_mask (st : BootLoaderState) (i s : Nat) :
    (rejectSlot st i s).img_mask = st.img_mask := rfl

@[simp] lemma rejectSlot_imgs (st : BootLoaderState) (i s : Nat) :
    (rejectSlot st i s).imgs = st.imgs := rfl

@[simp] lemma rejectSlot_areas (st : BootLoaderState) (i s : Nat) :
    (rejectSlot st i s).areas = st.areas := rfl

lemma setActive_usage_same (st : BootLoaderState) (i v : Nat) :
    ((setActive st i v).slot_usage i) =
      { st.slot_usage i with active_slot := v } := by
  simp [setActive]

lemma setActive_usage_other (st : BootLoaderState) (i v j : Nat) (h : j ≠ i) :
    ((setActive st i v).slot_usage j) = st.slot_usage j := by
  simp [setActive, h]

lemma clearAvail_usage_other (st : BootLoaderState) (i s j : Nat) (h : j ≠ i) :
    ((clearAvail st i s).slot_usage j) = st.slot_usage j := by
  simp [clearAvail, h]

lemma setSwap_usage_other (st : BootLoaderState) (i : Nat) (sw : BootSwapState)
    (j : Nat) (h : j ≠ i) :
    ((setSwap st i sw).slot_usage j) = st.slot_usage j := by
  simp [setSwap, h]

lemma rejectSlot_usage_other (st : BootLoaderState) (i s j : Nat) (h : j ≠ i) :
    ((rejectSlot st i s).slot_usage j) = st.slot_usage j := by
  simp [rejectSlot, setActive, clearAvail, h]

@[simp] lemma rejectSlot_active (st : BootLoaderState) (i s : Nat) :
    ((rejectSlot st i s).slot_usage i).active_slot = BOOT_SLOT_NONE := by
  simp [rejectSlot, setActive]

@[simp] lemma rejectSlot_avail_cleared (st : BootLoaderState) (i s : Nat) :
    ((rejectSlot st i s).slot_usage i).slot_available s = false := by
  simp [rejectSlot, setActive, clearAvail]

lemma rejectSlot_avail (st : BootLoaderState) (i s j t : Nat) :
    ((rejectSlot st i s).slot_usage j).slot_available t =
      (if j = i ∧ t = s then false
       else (st.slot_usage j).slot_available t) := by
  by_cases hj : j = i
  · subst hj
    by_cases ht : t = s
    · subst ht; simp [rejectSlot, setActive, clearAvail]
    · simp [rejectSlot, setActive, clearAvail, ht]
  · simp [rejectSlot, setActive, clearAvail, hj]

lemma setSwap_avail (st : BootLoaderState) (i : Nat) (sw : BootSwapState)
    (j t : Nat) :
    ((setSwap st i sw).slot_usage j).slot_available t =
      (st.slot_usage j).slot_available t := by
  by_cases hj : j = i
  · subst hj; simp [setSwap]
  · simp [setSwap, hj]

lemma setActive_avail (st : BootLoaderState) (i v j t : Nat) :
    ((setActive st i v).slot_usage j).slot_available t =
      (st.slot_usage j).slot_available t := by
  by_cases hj : j = i
  · subst hj; simp [setActive]
  · simp [setActive, hj]

@[simp] lemma selState_withTr (evs : List Ev) (o : SelOutcome) :
    selState (withTr evs o) = selState o := by
  cases o <;> rfl

@[simp] lemma selTrace_withTr (evs : List Ev) (o : SelOutcome) :
    selTrace (withTr evs o) = evs ++ selTrace o := by
  cases o <;> rfl

@[simp] lemma selIsOut_withTr (evs : List Ev) (o : SelOutcome) :
    selIsOut (withTr evs o) = selIsOut o := by
  cases o <;> rfl

@[simp] lemma selIsDone_withTr (evs : List Ev) (o : SelOutcome) :
    selIsDone (withTr evs o) = selIsDone o := by
  cases o <;> rfl

@[simp] lemma loopState_withTrL (evs : List Ev) (o : LoopOutcome) :
    loopState (withTrL evs o) = loopState o := by
  cases o <;> rfl

@[simp] lemma loopTrace_withTrL (evs : List Ev) (o : LoopOutcome) :
    loopTrace (withTrL evs o) = evs ++ loopTrace o := by
  cases o <;> rfl

@[simp] lemma loopTimedOut_withTrL (evs : List Ev) (o : LoopOutcome) :
    loopTimedOut (withTrL evs o) = loopTimedOut o := by
  cases o <;> rfl

/-! ## Availability order and well-behaved runs -/

lemma availLe_refl (st : BootLoaderState) : AvailLe st st := fun _ _ h => h

lemma availLe_trans {st st1 st2 : BootLoaderState}
    (h1 : AvailLe st st1) (h2 : AvailLe st1 st2) : AvailLe st st2 :=
  fun i s h => h1 i s (h2 i s h)

lemma availLe_false_mono {st st' : BootLoaderState} (h : AvailLe st st')
    {i s : Nat} (hf : (st.slot_usage i).slot_available s = false) :
    (st'.slot_usage i).slot_available s = false := by
  cases hav : (st'.slot_usage i).slot_available s
  · rfl
  · rw [h i s hav] at hf; exact absurd hf (by simp)

lemma availLe_setActive (st : BootLoaderState) (i v : Nat) :
    AvailLe st (setActive st i v) := by
  intro j t h
  rwa [setActive_avail] at h

lemma availLe_setSwap (st : BootLoaderState) (i : Nat) (sw : BootSwapState) :
    AvailLe st (setSwap st i sw) := by
  intro j t h
  rwa [setSwap_avail] at h

lemma availLe_rejectSlot (st : BootLoaderState) (i s : Nat) :
    AvailLe st (rejectSlot st i s) := by
  intro j t h
  rw [rejectSlot_avail] at h
  split at h
  · exact absurd h (by simp)
  · exact h

lemma NoCommitAfterClear_of_no_clear :
    ∀ (l : List Ev), (∀ i s, Ev.clear i s ∉ l) → NoCommitAfterClear l := by
  intro l
  induction l with
  | nil => intro _; trivial
  | cons e rest ih =>
    intro h
    have hrest : ∀ i s, Ev.clear i s ∉ rest := by
      intro i s hm
      exact h i s (List.mem_cons_of_mem e hm)
    cases e with
    | clear i s => exact absurd (List.mem_cons_self _ _) (h i s)
    | commit i s => exact ih hrest
    | scramble i s o l2 => exact ih hrest
    | writeCopyDone i s ok => exact ih hrest
    | removeFromSram i => exact ih hrest
    | removeFromFlash i s => exact ih hrest

lemma NoCommitAfterClear_append (a b : List Ev) :
    NoCommitAfterClear a → NoCommitAfterClear b →
    (∀ i s, Ev.clear i s ∈ a → Ev.commit i s ∉ b) →
    NoCommitAfterClear (a ++ b) := by
  induction a with
  | nil => intro _ hb _; simpa using hb
  | cons e a' ih =>
    intro ha hb hx
    have hx' : ∀ i s, Ev.clear i s ∈ a' → Ev.commit i s ∉ b := by
      intro i s hm
      exact hx i s (List.mem_cons_of_mem e hm)
    cases e with
    | clear i s =>
      obtain ⟨hnotin, ha'⟩ := ha
      refine ⟨?_, ih ha' hb hx'⟩
      intro hm
      rcases List.mem_append.mp hm with hm | hm
      · exact hnotin hm
      · exact hx i s (List.mem_cons_self _ _) hm
    | commit i s => exact ih ha hb hx'
    | scramble i s o l2 => exact ih ha hb hx'
    | writeCopyDone i s ok => exact ih ha hb hx'
    | removeFromSram i => exact ih ha hb hx'
    | removeFromFlash i s => exact ih ha hb hx'

lemma goodRun_refl (st : BootLoaderState) : GoodRun st st [] :=
  ⟨availLe_refl st, fun _ _ _ h => absurd h (List.not_mem_nil _),
   fun _ _ h => absurd h (List.not_mem_nil _), trivial⟩

lemma goodRun_trans {st st1 st2 : BootLoaderState} {t1 t2 : List Ev}
    (h1 : GoodRun st st1 t1) (h2 : GoodRun st1 st2 t2) :
    GoodRun st st2 (t1 ++ t2) := by
  obtain ⟨hle1, hc1, hcl1, hn1⟩ := h1
  obtain ⟨hle2, hc2, hcl2, hn2⟩ := h2
  refine ⟨availLe_trans hle1 hle2, ?_, ?_, ?_⟩
  · intro i s hf hm
    rcases List.mem_append.mp hm with hm | hm
    · exact hc1 i s hf hm
    · exact hc2 i s (availLe_false_mono hle1 hf) hm
  · intro i s hm
    rcases List.mem_append.mp hm with hm | hm
    · exact availLe_false_mono hle2 (hcl1 i s hm)
    · exact hcl2 i s hm
  · exact NoCommitAfterClear_append t1 t2 hn1 hn2
      (fun i s hm => hc2 i s (hcl1 i s hm))

lemma goodRun_commit {st : BootLoaderState} {i s : Nat}
    (hav : (st.slot_usage i).slot_available s = true) :
    GoodRun st (setActive st i s) [Ev.commit i s] := by
  refine ⟨availLe_setActive st i s, ?_, ?_, trivial⟩
  · intro i' s' hf hm
    rcases List.mem_singleton.mp hm with h
    obtain ⟨hi, hs⟩ := Ev.commit.inj h
    subst hi; subst hs
    rw [hav] at hf
    exact absurd hf (by simp)
  · intro i' s' hm
    rcases List.mem_singleton.mp hm with h
    exact absurd h (by simp)

lemma goodRun_neutral {st st' : BootLoaderState} {evs : List Ev}
    (hav : ∀ i s, (st'.slot_usage i).slot_available s =
                  (st.slot_usage i).slot_available s)
    (hno : ∀ i s, Ev.commit i s ∉ evs ∧ Ev.clear i s ∉ evs) :
    GoodRun st st' evs := by
  refine ⟨fun i s h => (hav i s) ▸ h, fun i s _ => (hno i s).1,
    fun i s hm => absurd hm (hno i s).2, ?_⟩
  exact NoCommitAfterClear_of_no_clear evs (fun i s => (hno i s).2)

lemma goodRun_clear (st : BootLoaderState) (i s : Nat) :
    GoodRun st (rejectSlot st i s) [Ev.clear i s] := by
  refine ⟨availLe_rejectSlot st i s, ?_, ?_, ?_⟩
  · intro i' s' _ hm
    rcases List.mem_singleton.mp hm with h
    exact absurd h (by simp)
  · intro i' s' hm
    rcases List.mem_singleton.mp hm with h
    obtain ⟨hi, hs⟩ := Ev.clear.inj h
    subst hi; subst hs
    exact rejectSlot_avail_cleared st i' s'
  · exact ⟨List.not_mem_nil _, trivial⟩

/-! ## Properties of the version comparator -/

lemma boot_compare_version_self (a : ImageVersion) :
    boot_compare_version a a = 0 := by
  simp [boot_compare_version]

lemma boot_compare_version_cases (a b : ImageVersion) :
    boot_compare_version a b = -1 ∨ boot_compare_version a b = 0 ∨
    boot_compare_version a b = 1 := by
  unfold boot_compare_version
  split_ifs <;> simp

lemma boot_compare_version_neg (a b : ImageVersion) :
    boot_compare_version a b = - boot_compare_version b a := by
  unfold boot_compare_version
  split_ifs <;> omega

lemma boot_compare_version_not_one (a b : ImageVersion)
    (h : boot_compare_version a b ≠ 1) : 0 ≤ boot_compare_version b a := by
  rcases boot_compare_version_cases a b with h1 | h1 | h1
  · rw [boot_compare_version_neg b a, h1]; norm_num
  · rw [boot_compare_version_neg b a, h1]; norm_num
  · exact absurd h1 h

/-! ## Characterization of the slot selector -/

lemma find_slot_eq (st : BootLoaderState) (img : Nat) :
    find_slot_with_highest_version st img =
      (if (st.slot_usage img).slot_available 0 then
        (if (st.slot_usage img).slot_available 1 then
          (if boot_compare_version (st.imgs img 1).ih_ver
                (st.imgs img 0).ih_ver = 1 then 1 else 0)
         else 0)
       else
        (if (st.slot_usage img).slot_available 1 then 1
         else BOOT_SLOT_NONE)) := by
  have hr : List.range BOOT_NUM_SLOTS = [0, 1] := by decide
  unfold find_slot_with_highest_version
  rw [hr]
  by_cases h0 : (st.slot_usage img).slot_available 0 <;>
    by_cases h1 : (st.slot_usage img).slot_available 1 <;>
      simp [findSlotGo, h0, h1, BOOT_SLOT_NONE]

/-- Claim C3: for every per-image availability bitmap,
`find_slot_with_highest_version` returns a slot `r` with
`slot_available[r] = true` whose header version is maximal (by the
four-field lexicographic comparison) among all available slots, the
lowest such index on version ties, and returns `BOOT_SLOT_NONE`
exactly when no slot is available. -/
theorem find_slot_with_highest_version_correct (st : BootLoaderState) (img : Nat) :
    (find_slot_with_highest_version st img = BOOT_SLOT_NONE ↔
      ∀ s, s < BOOT_NUM_SLOTS → (st.slot_usage img).slot_available s = false) ∧
    (find_slot_with_highest_version st img ≠ BOOT_SLOT_NONE →
      find_slot_with_highest_version st img < BOOT_NUM_SLOTS ∧
      (st.slot_usage img).slot_available
        (find_slot_with_highest_version st img) = true ∧
      (∀ s, s < BOOT_NUM_SLOTS → (st.slot_usage img).slot_available s = true →
        0 ≤ boot_compare_version
              (st.imgs img (find_slot_with_highest_version st img)).ih_ver
              (st.imgs img s).ih_ver) ∧
      (∀ s, s < BOOT_NUM_SLOTS → (st.slot_usage img).slot_available s = true →
        boot_compare_version
          (st.imgs img (find_slot_with_highest_version st img)).ih_ver
          (st.imgs img s).ih_ver = 0 →
        find_slot_with_highest_version st img ≤ s)) := by
  have hbig : ¬ ((0 : Nat) = BOOT_SLOT_NONE) := by decide
  have hbig1 : ¬ ((1 : Nat) = BOOT_SLOT_NONE) := by decide
  rw [find_slot_eq st img]
  by_cases h0 : (st.slot_usage img).slot_available 0 = true <;>
    by_cases h1 : (st.slot_usage img).slot_available 1 = true
  · by_cases hc : boot_compare_version (st.imgs img 1).ih_ver
        (st.imgs img 0).ih_ver = 1
    · rw [if_pos h0, if_pos h1, if_pos hc]
      refine ⟨⟨fun h => absurd h hbig1,
        fun h => absurd (h 1 (by decide)) (by simp [h1])⟩,
        fun _ => ⟨by decide, h1, ?_, ?_⟩⟩
      · intro s hs _
        have hs' : s < 2 := hs
        interval_cases s
        · rw [hc]; norm_num
        · rw [boot_compare_version_self]
      · intro s hs _ heq
        have hs' : s < 2 := hs
        interval_cases s
        · rw [heq] at hc; norm_num at hc
        · exact le_refl 1
    · rw [if_pos h0, if_pos h1, if_neg hc]
      refine ⟨⟨fun h => absurd h hbig,
        fun h => absurd (h 0 (by decide)) (by simp [h0])⟩,
        fun _ => ⟨by decide, h0, ?_, ?_⟩⟩
      · intro s hs _
        have hs' : s < 2 := hs
        interval_cases s
        · rw [boot_compare_version_self]
        · exact boot_compare_version_not_one _ _ hc
      · intro s _ _ _
        exact Nat.zero_le s
  · have h1f : (st.slot_usage img).slot_available 1 = false := by simpa using h1
    rw [if_pos h0, if_neg h1]
    refine ⟨⟨fun h => absurd h hbig,
      fun h => absurd (h 0 (by decide)) (by simp [h0])⟩,
      fun _ => ⟨by decide, h0, ?_, ?_⟩⟩
    · intro s hs hav
      have hs' : s < 2 := hs
      interval_cases s
      · rw [boot_compare_version_self]
      · exact absurd hav (by simp [h1f])
    · intro s _ _ _
      exact Nat.zero_le s
  · have h0f : (st.slot_usage img).slot_available 0 = false := by simpa using h0
    rw [if_neg h0, if_pos h1]
    refine ⟨⟨fun h => absurd h hbig1,
      fun h => absurd (h 1 (by decide)) (by simp [h1])⟩,
      fun _ => ⟨by decide, h1, ?_, ?_⟩⟩
    · intro s hs hav
      have hs' : s < 2 := hs
      interval_cases s
      · exact absurd hav (by simp [h0f])
      · rw [boot_compare_version_self]
    · intro s hs hav _
      have hs' : s < 2 := hs
      interval_cases s
      · exact absurd hav (by simp [h0f])
      · exact le_refl 1
  · have h0f : (st.slot_usage img).slot_available 0 = false := by simpa using h0
    have h1f : (st.slot_usage img).slot_available 1 = false := by simpa using h1
    rw [if_neg h0, if_neg h1]
    refine ⟨⟨fun _ s hs => ?_, fun _ => rfl⟩, fun h => absurd rfl h⟩
    have hs' : s < 2 := hs
    interval_cases s
    · exact h0f
    · exact h1f

/-- Witness for claim C3's theorem at a concrete two-slot state. -/
theorem find_slot_with_highest_version_correct_witness :
    find_slot_with_highest_version (stBase 1) 0 = BOOT_SLOT_NONE :=
  ((find_slot_with_highest_version_correct (stBase 1) 0).1).2
    (by intro s _; rfl)

/-! ## The revert/erase gate -/

lemma select_or_erase_scrambled_eq (sw : BootSwapState) (size : Nat) (wok : Bool) :
    (boot_select_or_erase sw size wok).scrambled =
      (if sw.magic ≠ BootMagic.good ∨
          (sw.copy_done = BootFlag.set ∧ sw.image_ok ≠ BootFlag.set)
       then some (0, size) else none) := by
  unfold boot_select_or_erase
  split_ifs <;> rfl

lemma select_or_erase_rc_iff (sw : BootSwapState) (size : Nat) (wok : Bool) :
    (boot_select_or_erase sw size wok).rc ≠ 0 ↔
      (sw.magic ≠ BootMagic.good ∨
       (sw.copy_done = BootFlag.set ∧ sw.image_ok ≠ BootFlag.set)) := by
  unfold boot_select_or_erase
  split_ifs with h1 h2 <;> simp [h1]

lemma select_or_erase_triggered (sw : BootSwapState) (size : Nat) (wok : Bool)
    (h : sw.magic ≠ BootMagic.good ∨
         (sw.copy_done = BootFlag.set ∧ sw.image_ok ≠ BootFlag.set)) :
    boot_select_or_erase sw size wok =
      { rc := -1, scrambled := some (0, size), copy_done_write := none,
        recorded := sw } := by
  simp [boot_select_or_erase, h]

/-- One rejection step of the DIRECT_XIP selection loop through the
revert/erase gate: with a committed candidate whose trailer triggers
the revert condition, the iteration scrambles, clears the slot's
availability, resets `active_slot`, and loops back to scanning. -/
lemma selectLoopXip_revert_reject (cfg : Config) (ext : Externals)
    (img fuel : Nat) (st : BootLoaderState) (slot : Nat)
    (hrev : cfg.revert = true)
    (hact : (st.slot_usage img).active_slot = BOOT_SLOT_NONE)
    (hcand : candidateSlot ext st img = slot)
    (hslot : ¬ slot = BOOT_SLOT_NONE)
    (hmask : ¬ (1 < st.num_images ∧ st.img_mask img = true))
    (hrom : boot_rom_address_check (setActive st img slot) img = false)
    (htrig : (ext.trailer img slot).magic ≠ BootMagic.good ∨
             ((ext.trailer img slot).copy_done = BootFlag.set ∧
              (ext.trailer img slot).image_ok ≠ BootFlag.set)) :
    selectLoopXip cfg ext img (fuel + 1) st =
      withTr [Ev.commit img slot,
              Ev.scramble img slot 0 ((st.areas img slot).fa_size),
              Ev.clear img slot]
        (selectLoopXip cfg ext img fuel
          (rejectSlot (setSwap (setActive st img slot) img
            (ext.trailer img slot)) img slot)) := by
  have hr := select_or_erase_triggered (ext.trailer img slot)
    ((st.areas img slot).fa_size) (ext.write_copy_done_ok img slot) htrig
  simp only [selectLoopXip, hcand, hr, hact, hrev]
  rw [if_neg (by simp), if_neg hslot, if_neg (by simpa using hmask),
    if_neg (by simp [hrom]), if_pos trivial, if_pos (by norm_num)]
  simp [gateEvs]

/-- Claim C1: in a revert-enabled mode, for every image whose tentative
active slot's trailer satisfies `magic ≠ good` or
(`copy_done = set` and `image_ok ≠ set`), `boot_select_or_erase`
scrambles the entire slot (offset 0 through the slot's full size) and
returns nonzero, and for every other trailer state it does not
scramble; moreover the selection loop then clears that slot's
availability and resets `active_slot` before scanning resumes, so the
slot is erased and invalidated before any further commit is
attempted. -/
theorem select_or_erase_scrambles_iff :
    (∀ (sw : BootSwapState) (size : Nat) (wok : Bool),
      (boot_select_or_erase sw size wok).scrambled =
        (if sw.magic ≠ BootMagic.good ∨
            (sw.copy_done = BootFlag.set ∧ sw.image_ok ≠ BootFlag.set)
         then some (0, size) else none)) ∧
    (∀ (sw : BootSwapState) (size : Nat) (wok : Bool),
      ((boot_select_or_erase sw size wok).rc ≠ 0 ↔
        (sw.magic ≠ BootMagic.good ∨
         (sw.copy_done = BootFlag.set ∧ sw.image_ok ≠ BootFlag.set)))) ∧
    (∀ (cfg : Config) (ext : Externals) (img fuel : Nat)
       (st : BootLoaderState) (slot : Nat),
      cfg.revert = true →
      (st.slot_usage img).active_slot = BOOT_SLOT_NONE →
      candidateSlot ext st img = slot →
      ¬ slot = BOOT_SLOT_NONE →
      ¬ (1 < st.num_images ∧ st.img_mask img = true) →
      boot_rom_address_check (setActive st img slot) img = false →
      ((ext.trailer img slot).magic ≠ BootMagic.good ∨
       ((ext.trailer img slot).copy_done = BootFlag.set ∧
        (ext.trailer img slot).image_ok ≠ BootFlag.set)) →
      ∃ st2,
        selectLoopXip cfg ext img (fuel + 1) st =
          withTr [Ev.commit img slot,
                  Ev.scramble img slot 0 ((st.areas img slot).fa_size),
                  Ev.clear img slot]
            (selectLoopXip cfg ext img fuel st2) ∧
        (st2.slot_usage img).slot_available slot = false ∧
        (st2.slot_usage img).active_slot = BOOT_SLOT_NONE) := by
  refine ⟨select_or_erase_scrambled_eq, select_or_erase_rc_iff, ?_⟩
  intro cfg ext img fuel st slot hrev hact hcand hslot hmask hrom htrig
  refine ⟨rejectSlot (setSwap (setActive st img slot) img
    (ext.trailer img slot)) img slot, ?_, by simp, by simp⟩
  exact selectLoopXip_revert_reject cfg ext img fuel st slot hrev hact hcand
    hslot hmask hrom htrig

/-- Witness for claim C1's theorem: a stale trailer
`(good, copy_done = set, image_ok = unset)` on slot 0 of a one-image
state makes the selector scramble and invalidate the slot. -/
theorem select_or_erase_scrambles_iff_witness :
    (boot_select_or_erase ⟨BootMagic.good, 0, BootFlag.set, BootFlag.unset⟩
        65536 true).scrambled =
      (if (⟨BootMagic.good, 0, BootFlag.set, BootFlag.unset⟩ : BootSwapState).magic
            ≠ BootMagic.good ∨
          ((⟨BootMagic.good, 0, BootFlag.set, BootFlag.unset⟩ : BootSwapState).copy_done
             = BootFlag.set ∧
           (⟨BootMagic.good, 0, BootFlag.set, BootFlag.unset⟩ : BootSwapState).image_ok
             ≠ BootFlag.set)
       then some (0, 65536) else none) ∧
    ∃ st2,
      selectLoopXip cfgRevert extStale 0 (3 + 1) (stAvail 1) =
        withTr [Ev.commit 0 0, Ev.scramble 0 0 0 (((stAvail 1).areas 0 0).fa_size),
                Ev.clear 0 0]
          (selectLoopXip cfgRevert extStale 0 3 st2) ∧
      (st2.slot_usage 0).slot_available 0 = false ∧
      (st2.slot_usage 0).active_slot = BOOT_SLOT_NONE :=
  ⟨select_or_erase_scrambles_iff.1 _ 65536 true,
   select_or_erase_scrambles_iff.2.2 cfgRevert extStale 0 3 (stAvail 1) 0
     rfl (by decide) (by decide) (by decide) (by decide) (by decide) (by decide)⟩

/-! ## Branch equations of the DIRECT_XIP selection loop -/

lemma selectLoopXip_done_active (cfg : Config) (ext : Externals)
    (img fuel : Nat) (st : BootLoaderState)
    (h : ¬ (st.slot_usage img).active_slot = BOOT_SLOT_NONE) :
    selectLoopXip cfg ext img (fuel + 1) st = SelOutcome.done st [] := by
  simp only [selectLoopXip]
  rw [if_pos h]

lemma selectLoopXip_fail_none (cfg : Config) (ext : Externals)
    (img fuel : Nat) (st : BootLoaderState)
    (hact : (st.slot_usage img).active_slot = BOOT_SLOT_NONE)
    (hcand : candidateSlot ext st img = BOOT_SLOT_NONE) :
    selectLoopXip cfg ext img (fuel + 1) st = SelOutcome.fail st [] := by
  simp only [selectLoopXip, hcand]
  rw [if_neg (by simp [hact]), if_pos trivial]

lemma selectLoopXip_masked (cfg : Config) (ext : Externals)
    (img fuel : Nat) (st : BootLoaderState) (slot : Nat)
    (hact : (st.slot_usage img).active_slot = BOOT_SLOT_NONE)
    (hcand : candidateSlot ext st img = slot)
    (hslot : ¬ slot = BOOT_SLOT_NONE)
    (hmask : 1 < st.num_images ∧ st.img_mask img = true) :
    selectLoopXip cfg ext img (fuel + 1) st =
      withTr [Ev.commit img slot]
        (selectLoopXip cfg ext img fuel (setActive st img slot)) := by
  simp only [selectLoopXip, hcand]
  rw [if_neg (by simp [hact]), if_neg hslot, if_pos (by simpa using hmask)]

lemma selectLoopXip_rom_reject (cfg : Config) (ext : Externals)
    (img fuel : Nat) (st : BootLoaderState) (slot : Nat)
    (hact : (st.slot_usage img).active_slot = BOOT_SLOT_NONE)
    (hcand : candidateSlot ext st img = slot)
    (hslot : ¬ slot = BOOT_SLOT_NONE)
    (hmask : ¬ (1 < st.num_images ∧ st.img_mask img = true))
    (hrom : boot_rom_address_check (setActive st img slot) img = true) :
    selectLoopXip cfg ext img (fuel + 1) st =
      withTr [Ev.commit img slot, Ev.clear img slot]
        (selectLoopXip cfg ext img fuel
          (rejectSlot (setActive st img slot) img slot)) := by
  simp only [selectLoopXip, hcand]
  rw [if_neg (by simp [hact]), if_neg hslot, if_neg (by simpa using hmask),
    if_pos hrom]

lemma selectLoopXip_revert_accept_valid (cfg : Config) (ext : Externals)
    (img fuel : Nat) (st : BootLoaderState) (slot : Nat)
    (hact : (st.slot_usage img).active_slot = BOOT_SLOT_NONE)
    (hcand : candidateSlot ext st img = slot)
    (hslot : ¬ slot = BOOT_SLOT_NONE)
    (hmask : ¬ (1 < st.num_images ∧ st.img_mask img = true))
    (hrom : boot_rom_address_check (setActive st img slot) img = false)
    (hrev : cfg.revert = true)
    (hrc : (boot_select_or_erase (ext.trailer img slot)
             ((st.areas img slot).fa_size)
             (ext.write_copy_done_ok img slot)).rc = 0)
    (hval : ext.validate_ok img slot = true) :
    selectLoopXip cfg ext img (fuel + 1) st =
      SelOutcome.done
        (setSwap (setActive st img slot) img
          (boot_select_or_erase (ext.trailer img slot)
            ((st.areas img slot).fa_size)
            (ext.write_copy_done_ok img slot)).recorded)
        (Ev.commit img slot ::
          gateEvs img slot (boot_select_or_erase (ext.trailer img slot)
            ((st.areas img slot).fa_size)
            (ext.write_copy_done_ok img slot))) := by
  simp only [selectLoopXip, hcand, hrev]
  rw [if_neg (by simp [hact]), if_neg hslot, if_neg (by simpa using hmask),
    if_neg (by simp [hrom]), if_pos trivial, if_neg (by simp [hrc]),
    if_pos hval]

lemma selectLoopXip_revert_accept_invalid (cfg : Config) (ext : Externals)
    (img fuel : Nat) (st : BootLoaderState) (slot : Nat)
    (hact : (st.slot_usage img).active_slot = BOOT_SLOT_NONE)
    (hcand : candidateSlot ext st img = slot)
    (hslot : ¬ slot = BOOT_SLOT_NONE)
    (hmask : ¬ (1 < st.num_images ∧ st.img_mask img = true))
    (hrom : boot_rom_address_check (setActive st img slot) img = false)
    (hrev : cfg.revert = true)
    (hrc : (boot_select_or_erase (ext.trailer img slot)
             ((st.areas img slot).fa_size)
             (ext.write_copy_done_ok img slot)).rc = 0)
    (hval : ext.validate_ok img slot = false) :
    selectLoopXip cfg ext img (fuel + 1) st =
      withTr (Ev.commit img slot ::
          gateEvs img slot (boot_select_or_erase (ext.trailer img slot)
            ((st.areas img slot).fa_size)
            (ext.write_copy_done_ok img slot)) ++ [Ev.clear img slot])
        (selectLoopXip cfg ext img fuel
          (rejectSlot (setSwap (setActive st img slot) img
            (boot_select_or_erase (ext.trailer img slot)
              ((st.areas img slot).fa_size)
              (ext.write_copy_done_ok img slot)).recorded) img slot)) := by
  simp only [selectLoopXip, hcand, hrev]
  rw [if_neg (by simp [hact]), if_neg hslot, if_neg (by simpa using hmask),
    if_neg (by simp [hrom]), if_pos trivial, if_neg (by simp [hrc]),
    if_neg (by simp [hval])]

lemma selectLoopXip_norevert_valid (cfg : Config) (ext : Externals)
    (img fuel : Nat) (st : BootLoaderState) (slot : Nat)
    (hact : (st.slot_usage img).active_slot = BOOT_SLOT_NONE)
    (hcand : candidateSlot ext st img = slot)
    (hslot : ¬ slot = BOOT_SLOT_NONE)
    (hmask : ¬ (1 < st.num_images ∧ st.img_mask img = true))
    (hrom : boot_rom_address_check (setActive st img slot) img = false)
    (hrev : cfg.revert = false)
    (hval : ext.validate_ok img slot = true) :
    selectLoopXip cfg ext img (fuel + 1) st =
      SelOutcome.done (setActive st img slot) [Ev.commit img slot] := by
  simp only [selectLoopXip, hcand, hrev]
  rw [if_neg (by simp [hact]), if_neg hslot, if_neg (by simpa using hmask),
    if_neg (by simp [hrom]), if_neg (by simp), if_pos hval]

lemma selectLoopXip_norevert_invalid (cfg : Config) (ext : Externals)
    (img fuel : Nat) (st : BootLoaderState) (slot : Nat)
    (hact : (st.slot_usage img).active_slot = BOOT_SLOT_NONE)
    (hcand : candidateSlot ext st img = slot)
    (hslot : ¬ slot = BOOT_SLOT_NONE)
    (hmask : ¬ (1 < st.num_images ∧ st.img_mask img = true))
    (hrom : boot_rom_address_check (setActive st img slot) img = false)
    (hrev : cfg.revert = false)
    (hval : ext.validate_ok img slot = false) :
    selectLoopXip cfg ext img (fuel + 1) st =
      withTr [Ev.commit img slot, Ev.clear img slot]
        (selectLoopXip cfg ext img fuel
          (rejectSlot (setActive st img slot) img slot)) := by
  simp only [selectLoopXip, hcand, hrev]
  rw [if_neg (by simp [hact]), if_neg hslot, if_neg (by simpa using hmask),
    if_neg (by simp [hrom]), if_neg (by simp), if_neg (by simp [hval])]

/-! ## Well-behaved runs of the DIRECT_XIP machine -/

lemma find_slot_avail (st : BootLoaderState) (img : Nat)
    (h : ¬ find_slot_with_highest_version st img = BOOT_SLOT_NONE) :
    find_slot_with_highest_version st img < BOOT_NUM_SLOTS ∧
    (st.slot_usage img).slot_available
      (find_slot_with_highest_version st img) = true := by
  rw [find_slot_eq] at h ⊢
  by_cases h0 : (st.slot_usage img).slot_available 0 = true <;>
    by_cases h1 : (st.slot_usage img).slot_available 1 = true
  · rw [if_pos h0, if_pos h1] at h ⊢
    by_cases hc : boot_compare_version (st.imgs img 1).ih_ver
        (st.imgs img 0).ih_ver = 1
    · rw [if_pos hc]; exact ⟨by decide, h1⟩
    · rw [if_neg hc]; exact ⟨by decide, h0⟩
  · rw [if_pos h0, if_neg h1] at h ⊢; exact ⟨by decide, h0⟩
  · rw [if_neg h0, if_pos h1] at h ⊢; exact ⟨by decide, h1⟩
  · rw [if_neg h0, if_neg h1] at h ⊢; exact absurd rfl h

lemma gateEvs_no_commit_clear (img slot : Nat) (r : SelectOrEraseResult)
    (i s : Nat) :
    Ev.commit i s ∉ gateEvs img slot r ∧ Ev.clear i s ∉ gateEvs img slot r := by
  unfold gateEvs
  rcases r.scrambled with _ | ⟨off, len⟩ <;>
    rcases r.copy_done_write with _ | ok <;> simp

lemma goodRun_commit_mid (st st1 : BootLoaderState) (img slot : Nat)
    (mid : List Ev)
    (hav : (st.slot_usage img).slot_available slot = true)
    (hst1 : ∀ i s, (st1.slot_usage i).slot_available s =
      ((setActive st img slot).slot_usage i).slot_available s)
    (hmid : ∀ i s, Ev.commit i s ∉ mid ∧ Ev.clear i s ∉ mid) :
    GoodRun st st1 (Ev.commit img slot :: mid) := by
  have g := goodRun_trans (goodRun_commit hav) (goodRun_neutral hst1 hmid)
  simpa using g

lemma goodRun_commit_mid_clear (st st1 : BootLoaderState) (img slot : Nat)
    (mid : List Ev)
    (hav : (st.slot_usage img).slot_available slot = true)
    (hst1 : ∀ i s, (st1.slot_usage i).slot_available s =
      ((setActive st img slot).slot_usage i).slot_available s)
    (hmid : ∀ i s, Ev.commit i s ∉ mid ∧ Ev.clear i s ∉ mid) :
    GoodRun st (rejectSlot st1 img slot)
      (Ev.commit img slot :: mid ++ [Ev.clear img slot]) := by
  have g := goodRun_trans (goodRun_commit_mid st st1 img slot mid hav hst1 hmid)
    (goodRun_clear st1 img slot)
  simpa using g

lemma selectLoopXip_goodRun (cfg : Config) (ext : Externals) (img : Nat)
    (hreg : ext.hook img = none) :
    ∀ (fuel : Nat) (st : BootLoaderState),
      GoodRun st (selState (selectLoopXip cfg ext img fuel st))
        (selTrace (selectLoopXip cfg ext img fuel st)) := by
  intro fuel
  induction fuel with
  | zero => intro st; exact goodRun_refl st
  | succ fuel ih =>
    intro st
    by_cases hc1 : (st.slot_usage img).active_slot = BOOT_SLOT_NONE
    · have hcand : candidateSlot ext st img =
          find_slot_with_highest_version st img := by
        rw [candidateSlot, hreg]
      by_cases hc2 : find_slot_with_highest_version st img = BOOT_SLOT_NONE
      · rw [selectLoopXip_fail_none cfg ext img fuel st hc1 (hcand.trans hc2)]
        exact goodRun_refl st
      · obtain ⟨hlt, hav⟩ := find_slot_avail st img hc2
        set slot := find_slot_with_highest_version st img with hF
        by_cases hc3 : 1 < st.num_images ∧ st.img_mask img = true
        · rw [selectLoopXip_masked cfg ext img fuel st slot hc1 hcand hc2 hc3]
          simp only [selState_withTr, selTrace_withTr]
          exact goodRun_trans (goodRun_commit hav) (ih (setActive st img slot))
        · by_cases hc4 : boot_rom_address_check (setActive st img slot) img = true
          · rw [selectLoopXip_rom_reject cfg ext img fuel st slot hc1 hcand hc2
              hc3 hc4]
            simp only [selState_withTr, selTrace_withTr]
            have g1 : GoodRun st (rejectSlot (setActive st img slot) img slot)
                [Ev.commit img slot, Ev.clear img slot] := by
              have := goodRun_commit_mid_clear st (setActive st img slot) img
                slot [] hav (fun _ _ => rfl) (by simp)
              simpa using this
            exact goodRun_trans g1 (ih _)
          · have hc4' : boot_rom_address_check (setActive st img slot) img = false := by
              simpa using hc4
            cases hrev : cfg.revert with
            | true =>
              set r := boot_select_or_erase (ext.trailer img slot)
                ((st.areas img slot).fa_size)
                (ext.write_copy_done_ok img slot) with hr
              by_cases hc6 : r.rc = 0
              · cases hval : ext.validate_ok img slot with
                | true =>
                  rw [selectLoopXip_revert_accept_valid cfg ext img fuel st slot
                    hc1 hcand hc2 hc3 hc4' hrev hc6 hval]
                  exact goodRun_commit_mid st _ img slot (gateEvs img slot r) hav
                    (fun i s => setSwap_avail _ _ _ _ _)
                    (gateEvs_no_commit_clear img slot r)
                | false =>
                  rw [selectLoopXip_revert_accept_invalid cfg ext img fuel st slot
                    hc1 hcand hc2 hc3 hc4' hrev hc6 hval]
                  simp only [selState_withTr, selTrace_withTr]
                  have g1 := goodRun_commit_mid_clear st
                    (setSwap (setActive st img slot) img r.recorded) img slot
                    (gateEvs img slot r) hav
                    (fun i s => setSwap_avail _ _ _ _ _)
                    (gateEvs_no_commit_clear img slot r)
                  have g2 := goodRun_trans g1 (ih (rejectSlot
                    (setSwap (setActive st img slot) img r.recorded) img slot))
                  simpa using g2
              · have hc6' : r.rc ≠ 0 := hc6
                have htrig := (select_or_erase_rc_iff (ext.trailer img slot)
                  ((st.areas img slot).fa_size)
                  (ext.write_copy_done_ok img slot)).mp hc6'
                rw [selectLoopXip_revert_reject cfg ext img fuel st slot hrev hc1
                  hcand hc2 hc3 hc4' htrig]
                simp only [selState_withTr, selTrace_withTr]
                have hrec : r.recorded = ext.trailer img slot := by
                  rw [hr, select_or_erase_triggered _ _ _ htrig]
                have g1 : GoodRun st (rejectSlot (setSwap (setActive st img slot)
                    img (ext.trailer img slot)) img slot)
                    (Ev.commit img slot ::
                      [Ev.scramble img slot 0 ((st.areas img slot).fa_size)] ++
                      [Ev.clear img slot]) :=
                  goodRun_commit_mid_clear st _ img slot
                    [Ev.scramble img slot 0 ((st.areas img slot).fa_size)] hav
                    (fun i s => setSwap_avail _ _ _ _ _) (by simp)
                have g2 := goodRun_trans g1 (ih (rejectSlot (setSwap (setActive st img slot)
                  img (ext.trailer img slot)) img slot))
                simpa using g2
            | false =>
              cases hval : ext.validate_ok img slot with
              | true =>
                rw [selectLoopXip_norevert_valid cfg ext img fuel st slot hc1
                  hcand hc2 hc3 hc4' hrev hval]
                have := goodRun_commit_mid st (setActive st img slot) img slot []
                  hav (fun _ _ => rfl) (by simp)
                simpa using this
              | false =>
                rw [selectLoopXip_norevert_invalid cfg ext img fuel st slot hc1
                  hcand hc2 hc3 hc4' hrev hval]
                simp only [selState_withTr, selTrace_withTr]
                have g1 : GoodRun st (rejectSlot (setActive st img slot) img slot)
                    [Ev.commit img slot, Ev.clear img slot] := by
                  have := goodRun_commit_mid_clear st (setActive st img slot) img
                    slot [] hav (fun _ _ => rfl) (by simp)
                  simpa using this
                exact goodRun_trans g1 (ih _)
    · rw [selectLoopXip_done_active cfg ext img fuel st hc1]
      exact goodRun_refl st

lemma frameOk_refl (st : BootLoaderState) : FrameOk st st := ⟨rfl, rfl, rfl, rfl⟩

lemma frameOk_trans {st st1 st2 : BootLoaderState}
    (h1 : FrameOk st st1) (h2 : FrameOk st1 st2) : FrameOk st st2 :=
  ⟨h2.1.trans h1.1, h2.2.1.trans h1.2.1, h2.2.2.1.trans h1.2.2.1,
   h2.2.2.2.trans h1.2.2.2⟩

lemma selectLoopXip_frame (cfg : Config) (ext : Externals) (img : Nat) :
    ∀ (fuel : Nat) (st : BootLoaderState),
      FrameOk st (selState (selectLoopXip cfg ext img fuel st)) ∧
      AvailLe st (selState (selectLoopXip cfg ext img fuel st)) ∧
      (∀ j, j ≠ img →
        (selState (selectLoopXip cfg ext img fuel st)).slot_usage j =
          st.slot_usage j) := by
  intro fuel
  induction fuel with
  | zero => intro st; exact ⟨frameOk_refl st, availLe_refl st, fun _ _ => rfl⟩
  | succ fuel ih =>
    intro st
    by_cases hc1 : (st.slot_usage img).active_slot = BOOT_SLOT_NONE
    · by_cases hc2 : candidateSlot ext st img = BOOT_SLOT_NONE
      · rw [selectLoopXip_fail_none cfg ext img fuel st hc1 hc2]
        exact ⟨frameOk_refl st, availLe_refl st, fun _ _ => rfl⟩
      · set slot := candidateSlot ext st img with hcand
        by_cases hc3 : 1 < st.num_images ∧ st.img_mask img = true
        · rw [selectLoopXip_masked cfg ext img fuel st slot hc1 rfl hc2 hc3]
          simp only [selState_withTr]
          obtain ⟨f, a, u⟩ := ih (setActive st img slot)
          exact ⟨frameOk_trans (frameOk_refl _) f,
            availLe_trans (availLe_setActive st img slot) a,
            fun j hj => (u j hj).trans (setActive_usage_other st img slot j hj)⟩
        · by_cases hc4 : boot_rom_address_check (setActive st img slot) img = true
          · rw [selectLoopXip_rom_reject cfg ext img fuel st slot hc1 rfl hc2
              hc3 hc4]
            simp only [selState_withTr]
            obtain ⟨f, a, u⟩ := ih (rejectSlot (setActive st img slot) img slot)
            refine ⟨frameOk_trans (frameOk_refl _) f,
              availLe_trans (availLe_trans (availLe_setActive st img slot)
                (availLe_rejectSlot _ img slot)) a,
              fun j hj => (u j hj).trans
                ((rejectSlot_usage_other _ img slot j hj).trans
                  (setActive_usage_other st img slot j hj))⟩
          · have hc4' : boot_rom_address_check (setActive st img slot) img = false := by
              simpa using hc4
            cases hrev : cfg.revert with
            | true =>
              set r := boot_select_or_erase (ext.trailer img slot)
                ((st.areas img slot).fa_size)
                (ext.write_copy_done_ok img slot) with hr
              by_cases hc6 : r.rc = 0
              · cases hval : ext.validate_ok img slot with
                | true =>
                  rw [selectLoopXip_revert_accept_valid cfg ext img fuel st slot
                    hc1 rfl hc2 hc3 hc4' hrev hc6 hval]
                  refine ⟨frameOk_refl _, ?_, fun j hj =>
                    (setSwap_usage_other _ img _ j hj).trans
                      (setActive_usage_other st img slot j hj)⟩
                  exact availLe_trans (availLe_setActive st img slot)
                    (availLe_setSwap _ img _)
                | false =>
                  rw [selectLoopXip_revert_accept_invalid cfg ext img fuel st slot
                    hc1 rfl hc2 hc3 hc4' hrev hc6 hval]
                  simp only [selState_withTr]
                  obtain ⟨f, a, u⟩ := ih (rejectSlot (setSwap (setActive st img slot)
                    img r.recorded) img slot)
                  refine ⟨frameOk_trans (frameOk_refl _) f,
                    availLe_trans (availLe_trans (availLe_trans
                      (availLe_setActive st img slot) (availLe_setSwap _ img _))
                      (availLe_rejectSlot _ img slot)) a,
                    fun j hj => (u j hj).trans
                      (((rejectSlot_usage_other _ img slot j hj).trans
                        (setSwap_usage_other _ img _ j hj)).trans
                        (setActive_usage_other st img slot j hj))⟩
              · have hc6' : r.rc ≠ 0 := hc6
                have htrig := (select_or_erase_rc_iff (ext.trailer img slot)
                  ((st.areas img slot).fa_size)
                  (ext.write_copy_done_ok img slot)).mp hc6'
                rw [selectLoopXip_revert_reject cfg ext img fuel st slot hrev hc1
                  rfl hc2 hc3 hc4' htrig]
                simp only [selState_withTr]
                obtain ⟨f, a, u⟩ := ih (rejectSlot (setSwap (setActive st img slot)
                  img (ext.trailer img slot)) img slot)
                refine ⟨frameOk_trans (frameOk_refl _) f,
                  availLe_trans (availLe_trans (availLe_trans
                    (availLe_setActive st img slot) (availLe_setSwap _ img _))
                    (availLe_rejectSlot _ img slot)) a,
                  fun j hj => (u j hj).trans
                    (((rejectSlot_usage_other _ img slot j hj).trans
                      (setSwap_usage_other _ img _ j hj)).trans
                      (setActive_usage_other st img slot j hj))⟩
            | false =>
              cases hval : ext.validate_ok img slot with
              | true =>
                rw [selectLoopXip_norevert_valid cfg ext img fuel st slot hc1
                  rfl hc2 hc3 hc4' hrev hval]
                exact ⟨frameOk_refl _, availLe_setActive st img slot,
                  fun j hj => setActive_usage_other st img slot j hj⟩
              | false =>
                rw [selectLoopXip_norevert_invalid cfg ext img fuel st slot hc1
                  rfl hc2 hc3 hc4' hrev hval]
                simp only [selState_withTr]
                obtain ⟨f, a, u⟩ := ih (rejectSlot (setActive st img slot) img slot)
                refine ⟨frameOk_trans (frameOk_refl _) f,
                  availLe_trans (availLe_trans (availLe_setActive st img slot)
                    (availLe_rejectSlot _ img slot)) a,
                  fun j hj => (u j hj).trans
                    ((rejectSlot_usage_other _ img slot j hj).trans
                      (setActive_usage_other st img slot j hj))⟩
    · rw [selectLoopXip_done_active cfg ext img fuel st hc1]
      exact ⟨frameOk_refl st, availLe_refl st, fun _ _ => rfl⟩

lemma loadImagesGoXip_goodRun (cfg : Config) (ext : Externals)
    (innerFuel : Nat) (hreg : RegularHook ext) :
    ∀ (l : List Nat) (st : BootLoaderState),
      GoodRun st (selState (loadImagesGoXip cfg ext innerFuel st l))
        (selTrace (loadImagesGoXip cfg ext innerFuel st l)) := by
  intro l
  induction l with
  | nil => intro st; exact goodRun_refl st
  | cons i rest ih =>
    intro st
    have g := selectLoopXip_goodRun cfg ext i (hreg i) innerFuel st
    cases h : selectLoopXip cfg ext i innerFuel st with
    | fail st' tr =>
      rw [h] at g
      simp only [loadImagesGoXip, h]
      exact g
    | outOfFuel st' tr =>
      rw [h] at g
      simp only [loadImagesGoXip, h]
      exact g
    | done st' tr =>
      rw [h] at g
      simp only [loadImagesGoXip, h, selState_withTr, selTrace_withTr]
      exact goodRun_trans g (ih st')

lemma loadImagesGoXip_frame (cfg : Config) (ext : Externals)
    (innerFuel : Nat) :
    ∀ (l : List Nat) (st : BootLoaderState),
      FrameOk st (selState (loadImagesGoXip cfg ext innerFuel st l)) ∧
      AvailLe st (selState (loadImagesGoXip cfg ext innerFuel st l)) := by
  intro l
  induction l with
  | nil => intro st; exact ⟨frameOk_refl st, availLe_refl st⟩
  | cons i rest ih =>
    intro st
    have g := selectLoopXip_frame cfg ext i innerFuel st
    cases h : selectLoopXip cfg ext i innerFuel st with
    | fail st' tr =>
      rw [h] at g
      simp only [loadImagesGoXip, h]
      exact ⟨g.1, g.2.1⟩
    | outOfFuel st' tr =>
      rw [h] at g
      simp only [loadImagesGoXip, h]
      exact ⟨g.1, g.2.1⟩
    | done st' tr =>
      rw [h] at g
      simp only [loadImagesGoXip, h, selState_withTr]
      obtain ⟨f, a⟩ := ih st'
      exact ⟨frameOk_trans g.1 f, availLe_trans g.2.1 a⟩

lemma verifyDepsGo_facts (deps : Nat → Nat → List RawTlv) (ram : Bool)
    (st : BootLoaderState) :
    ∀ (l : List Nat) (rc : Int),
      GoodRun st (verifyDepsGo deps ram st l rc).2.1
        (verifyDepsGo deps ram st l rc).2.2 ∧
      FrameOk st (verifyDepsGo deps ram st l rc).2.1 := by
  intro l
  induction l with
  | nil => intro rc; exact ⟨goodRun_refl st, frameOk_refl st⟩
  | cons i rest ih =>
    intro rc
    by_cases hm : st.img_mask i = true
    · rw [verifyDepsGo, if_pos hm]; exact ih rc
    · rw [verifyDepsGo, if_neg hm]
      by_cases hrc : boot_verify_slot_dependencies_xip_ram deps st i
          ((st.slot_usage i).active_slot) ≠ 0
      · rw [if_pos hrc]
        refine ⟨?_, frameOk_refl _⟩
        have g1 : GoodRun st st (if ram = true then [Ev.removeFromSram i] else []) := by
          refine goodRun_neutral (fun _ _ => rfl) ?_
          intro i' s'
          cases ram <;> simp
        have g2 := goodRun_trans g1 (goodRun_clear st i ((st.slot_usage i).active_slot))
        exact g2
      · rw [if_neg hrc]; exact ih _

lemma depLoopXip_goodRun (cfg : Config) (ext : Externals) (innerFuel : Nat)
    (hreg : RegularHook ext) :
    ∀ (fuel : Nat) (st : BootLoaderState),
      GoodRun st (loopState (depLoopXip cfg ext innerFuel fuel st))
        (loopTrace (depLoopXip cfg ext innerFuel fuel st)) := by
  intro fuel
  induction fuel with
  | zero => intro st; exact goodRun_refl st
  | succ fuel ih =>
    intro st
    have g : GoodRun st
        (selState (boot_load_and_validate_images_xip cfg ext innerFuel st))
        (selTrace (boot_load_and_validate_images_xip cfg ext innerFuel st)) :=
      loadImagesGoXip_goodRun cfg ext innerFuel hreg _ st
    cases h : boot_load_and_validate_images_xip cfg ext innerFuel st with
    | fail st' tr =>
      rw [h] at g
      simp only [depLoopXip, h]
      exact g
    | outOfFuel st' tr =>
      rw [h] at g
      simp only [depLoopXip, h]
      exact g
    | done st' tr =>
      rw [h] at g
      have gd := (verifyDepsGo_facts ext.deps false st'
        (List.range st'.num_images) (-1)).1
      by_cases hn : 1 < st'.num_images
      · by_cases hd : (boot_verify_dependencies_xip_ram ext.deps false st').1 ≠ 0
        · have heq : depLoopXip cfg ext innerFuel (fuel + 1) st =
              withTrL (tr ++ (boot_verify_dependencies_xip_ram ext.deps false st').2.2)
                (depLoopXip cfg ext innerFuel fuel
                  (boot_verify_dependencies_xip_ram ext.deps false st').2.1) := by
            simp only [depLoopXip, h]
            rw [if_pos hn, if_pos hd]
          rw [heq]
          simp only [loopState_withTrL, loopTrace_withTrL]
          have gdep : GoodRun st'
              (boot_verify_dependencies_xip_ram ext.deps false st').2.1
              (boot_verify_dependencies_xip_ram ext.deps false st').2.2 := gd
          have := goodRun_trans (goodRun_trans g gdep) (ih _)
          simpa using this
        · have heq : depLoopXip cfg ext innerFuel (fuel + 1) st =
              LoopOutcome.ok (boot_verify_dependencies_xip_ram ext.deps false st').2.1
                (tr ++ (boot_verify_dependencies_xip_ram ext.deps false st').2.2) := by
            simp only [depLoopXip, h]
            rw [if_pos hn, if_neg hd]
          rw [heq]
          exact goodRun_trans g gd
      · have heq : depLoopXip cfg ext innerFuel (fuel + 1) st =
            LoopOutcome.ok st' tr := by
          simp only [depLoopXip, h]
          rw [if_neg hn]
        rw [heq]
        exact g

lemma depLoopXip_frame (cfg : Config) (ext : Externals) (innerFuel : Nat) :
    ∀ (fuel : Nat) (st : BootLoaderState),
      FrameOk st (loopState (depLoopXip cfg ext innerFuel fuel st)) ∧
      AvailLe st (loopState (depLoopXip cfg ext innerFuel fuel st)) := by
  intro fuel
  induction fuel with
  | zero => intro st; exact ⟨frameOk_refl st, availLe_refl st⟩
  | succ fuel ih =>
    intro st
    have g := loadImagesGoXip_frame cfg ext innerFuel (List.range st.num_images) st
    cases h : boot_load_and_validate_images_xip cfg ext innerFuel st with
    | fail st' tr =>
      rw [show loadImagesGoXip cfg ext innerFuel st (List.range st.num_images) =
        SelOutcome.fail st' tr from h] at g
      simp only [depLoopXip, h]
      exact ⟨g.1, g.2⟩
    | outOfFuel st' tr =>
      rw [show loadImagesGoXip cfg ext innerFuel st (List.range st.num_images) =
        SelOutcome.outOfFuel st' tr from h] at g
      simp only [depLoopXip, h]
      exact ⟨g.1, g.2⟩
    | done st' tr =>
      rw [show loadImagesGoXip cfg ext innerFuel st (List.range st.num_images) =
        SelOutcome.done st' tr from h] at g
      have gd := verifyDepsGo_facts ext.deps false st'
        (List.range st'.num_images) (-1)
      by_cases hn : 1 < st'.num_images
      · by_cases hd : (boot_verify_dependencies_xip_ram ext.deps false st').1 ≠ 0
        · have heq : depLoopXip cfg ext innerFuel (fuel + 1) st =
              withTrL (tr ++ (boot_verify_dependencies_xip_ram ext.deps false st').2.2)
                (depLoopXip cfg ext innerFuel fuel
                  (boot_verify_dependencies_xip_ram ext.deps false st').2.1) := by
            simp only [depLoopXip, h]
            rw [if_pos hn, if_pos hd]
          rw [heq]
          simp only [loopState_withTrL]
          obtain ⟨f, a⟩ := ih (boot_verify_dependencies_xip_ram ext.deps false st').2.1
          exact ⟨frameOk_trans (frameOk_trans g.1 gd.2) f,
            availLe_trans (availLe_trans g.2 gd.1.1) a⟩
        · have heq : depLoopXip cfg ext innerFuel (fuel + 1) st =
              LoopOutcome.ok (boot_verify_dependencies_xip_ram ext.deps false st').2.1
                (tr ++ (boot_verify_dependencies_xip_ram ext.deps false st').2.2) := by
            simp only [depLoopXip, h]
            rw [if_pos hn, if_neg hd]
          rw [heq]
          exact ⟨frameOk_trans g.1 gd.2, availLe_trans g.2 gd.1.1⟩
      · have heq : depLoopXip cfg ext innerFuel (fuel + 1) st =
            LoopOutcome.ok st' tr := by
          simp only [depLoopXip, h]
          rw [if_neg hn]
        rw [heq]
        exact ⟨g.1, g.2⟩

/-! ## Counting available slots -/

lemma availCount_le_two (st : BootLoaderState) (i : Nat) :
    availCount st i ≤ 2 := by
  unfold availCount
  split_ifs <;> omega

lemma availCount_congr {st1 st : BootLoaderState} {i : Nat}
    (h : ∀ s, (st1.slot_usage i).slot_available s =
              (st.slot_usage i).slot_available s) :
    availCount st1 i = availCount st i := by
  unfold availCount
  rw [h 0, h 1]

lemma availCount_mono {st' st : BootLoaderState} {i : Nat}
    (h : ∀ s, (st'.slot_usage i).slot_available s = true →
              (st.slot_usage i).slot_available s = true) :
    availCount st' i ≤ availCount st i := by
  have h0 := h 0
  have h1 := h 1
  unfold availCount
  split_ifs with a b c d <;> simp_all

lemma availCount_pos {st : BootLoaderState} {i : Nat}
    (hlt : (st.slot_usage i).active_slot < 2)
    (hav : (st.slot_usage i).slot_available
      ((st.slot_usage i).active_slot) = true) :
    1 ≤ availCount st i := by
  unfold availCount
  rcases (by omega : (st.slot_usage i).active_slot = 0 ∨
      (st.slot_usage i).active_slot = 1) with h | h <;>
    rw [h] at hav <;> simp [hav]

lemma availCount_reject (st : BootLoaderState) (img slot : Nat)
    (hs : slot < 2)
    (hav : (st.slot_usage img).slot_available slot = true) :
    availCount (rejectSlot st img slot) img + 1 = availCount st img := by
  unfold availCount
  rw [rejectSlot_avail, rejectSlot_avail]
  rcases (by omega : slot = 0 ∨ slot = 1) with h | h <;> subst h <;>
    simp [hav] <;> split_ifs <;> omega

lemma availTotal_le_twice (st : BootLoaderState) :
    availTotal st ≤ 2 * st.num_images := by
  unfold availTotal
  calc ∑ i ∈ Finset.range st.num_images, availCount st i
      ≤ ∑ _i ∈ Finset.range st.num_images, 2 :=
        Finset.sum_le_sum (fun i _ => availCount_le_two st i)
    _ = 2 * st.num_images := by
        rw [Finset.sum_const, Finset.card_range, smul_eq_mul]; ring

lemma availTotal_ge (st : BootLoaderState)
    (h : ∀ i, i < st.num_images → 1 ≤ availCount st i) :
    st.num_images ≤ availTotal st := by
  unfold availTotal
  calc st.num_images = ∑ _i ∈ Finset.range st.num_images, 1 := by
        rw [Finset.sum_const, Finset.card_range, smul_eq_mul]; ring
    _ ≤ ∑ i ∈ Finset.range st.num_images, availCount st i :=
        Finset.sum_le_sum (fun i hi => h i (Finset.mem_range.mp hi))

lemma availTotal_mono {st st' : BootLoaderState} (h : AvailLe st st')
    (hn : st'.num_images = st.num_images) :
    availTotal st' ≤ availTotal st := by
  unfold availTotal
  rw [hn]
  exact Finset.sum_le_sum (fun i _ => availCount_mono (fun s => h i s))

lemma availTotal_reject (st : BootLoaderState) (i s : Nat)
    (hi : i < st.num_images) (hs : s < 2)
    (hav : (st.slot_usage i).slot_available s = true) :
    availTotal (rejectSlot st i s) + 1 = availTotal st := by
  unfold availTotal
  simp only [rejectSlot_num_images]
  have hmem : i ∈ Finset.range st.num_images := Finset.mem_range.mpr hi
  rw [← Finset.sum_erase_add _ _ hmem, ← Finset.sum_erase_add _ _ hmem]
  have hcongr : ∑ x ∈ (Finset.range st.num_images).erase i,
      availCount (rejectSlot st i s) x =
      ∑ x ∈ (Finset.range st.num_images).erase i, availCount st x := by
    refine Finset.sum_congr rfl (fun x hx => ?_)
    have hxi : x ≠ i := (Finset.mem_erase.mp hx).1
    exact availCount_congr (fun t => by
      rw [rejectSlot_usage_other st i s x hxi])
  rw [hcongr]
  have := availCount_reject st i s hs hav
  omega

/-! ## Invariants preserved by the DIRECT_XIP machine -/

lemma setSwap_active (st : BootLoaderState) (i : Nat) (sw : BootSwapState)
    (j : Nat) :
    ((setSwap st i sw).slot_usage j).active_slot =
      (st.slot_usage j).active_slot := by
  by_cases hj : j = i
  · subst hj; simp [setSwap]
  · simp [setSwap, hj]

lemma ActivesOk_setActive_avail {st : BootLoaderState} {img slot : Nat}
    (h : ActivesOk st) (hlt : slot < BOOT_NUM_SLOTS)
    (hav : (st.slot_usage img).slot_available slot = true) :
    ActivesOk (setActive st img slot) := by
  intro i hi
  by_cases hij : i = img
  · subst hij
    right
    rw [setActive_usage_same]
    exact ⟨hlt, hav⟩
  · rw [setActive_usage_other st img slot i hij]
    exact h i (by simpa using hi)

lemma ActivesOk_setSwap {st : BootLoaderState} {img : Nat}
    {sw : BootSwapState} (h : ActivesOk st) :
    ActivesOk (setSwap st img sw) := by
  intro i hi
  rcases h i (by simpa using hi) with hn | ⟨hlt, hav⟩
  · left; rw [setSwap_active]; exact hn
  · right
    rw [setSwap_active]
    exact ⟨hlt, by rw [setSwap_avail]; exact hav⟩

lemma ActivesOk_reject_any {st st1 : BootLoaderState} {img slot : Nat}
    (h : ActivesOk st)
    (hother : ∀ j, j ≠ img → st1.slot_usage j = st.slot_usage j)
    (hn : st1.num_images = st.num_images) :
    ActivesOk (rejectSlot st1 img slot) := by
  intro i hi
  by_cases hij : i = img
  · subst hij
    left
    exact rejectSlot_active st1 i slot
  · rw [rejectSlot_usage_other st1 img slot i hij, hother i hij]
    exact h i (by simpa [hn] using hi)

lemma selectLoopXip_keeps_committed (cfg : Config) (ext : Externals)
    (img fuel : Nat) (st : BootLoaderState) (i : Nat)
    (h : (st.slot_usage i).active_slot ≠ BOOT_SLOT_NONE) :
    ((selState (selectLoopXip cfg ext img fuel st)).slot_usage i).active_slot
      ≠ BOOT_SLOT_NONE := by
  by_cases hij : i = img
  · subst hij
    cases fuel with
    | zero => exact h
    | succ fuel =>
      rw [selectLoopXip_done_active cfg ext i fuel st h]
      exact h
  · rw [(selectLoopXip_frame cfg ext img fuel st).2.2 i hij]
    exact h

lemma slot_lt_ne_none {slot : Nat} (h : slot < BOOT_NUM_SLOTS) :
    slot ≠ BOOT_SLOT_NONE := by
  intro heq
  rw [heq] at h
  exact absurd h (by decide)

lemma selectLoopXip_post (cfg : Config) (ext : Externals) (img : Nat)
    (hreg : ext.hook img = none) :
    ∀ (fuel : Nat) (st : BootLoaderState), ActivesOk st →
      ActivesOk (selState (selectLoopXip cfg ext img fuel st)) ∧
      (selIsDone (selectLoopXip cfg ext img fuel st) = true →
        ((selState (selectLoopXip cfg ext img fuel st)).slot_usage img).active_slot
          ≠ BOOT_SLOT_NONE) := by
  intro fuel
  induction fuel with
  | zero =>
    intro st hA
    exact ⟨hA, fun h => by simp [selectLoopXip, selIsDone] at h⟩
  | succ fuel ih =>
    intro st hA
    by_cases hc1 : (st.slot_usage img).active_slot = BOOT_SLOT_NONE
    · have hcand : candidateSlot ext st img =
          find_slot_with_highest_version st img := by
        rw [candidateSlot, hreg]
      by_cases hc2 : find_slot_with_highest_version st img = BOOT_SLOT_NONE
      · rw [selectLoopXip_fail_none cfg ext img fuel st hc1 (hcand.trans hc2)]
        exact ⟨hA, fun h => absurd h (by simp [selIsDone])⟩
      · obtain ⟨hlt, hav⟩ := find_slot_avail st img hc2
        set slot := find_slot_with_highest_version st img with hF
        have hAc : ActivesOk (setActive st img slot) :=
          ActivesOk_setActive_avail hA hlt hav
        by_cases hc3 : 1 < st.num_images ∧ st.img_mask img = true
        · rw [selectLoopXip_masked cfg ext img fuel st slot hc1 hcand hc2 hc3]
          simp only [selState_withTr, selIsDone_withTr]
          exact ih (setActive st img slot) hAc
        · by_cases hc4 : boot_rom_address_check (setActive st img slot) img = true
          · rw [selectLoopXip_rom_reject cfg ext img fuel st slot hc1 hcand hc2
              hc3 hc4]
            simp only [selState_withTr, selIsDone_withTr]
            exact ih _ (ActivesOk_reject_any hA
              (fun j hj => setActive_usage_other st img slot j hj) rfl)
          · have hc4' : boot_rom_address_check (setActive st img slot) img = false := by
              simpa using hc4
            cases hrev : cfg.revert with
            | true =>
              set r := boot_select_or_erase (ext.trailer img slot)
                ((st.areas img slot).fa_size)
                (ext.write_copy_done_ok img slot) with hr
              by_cases hc6 : r.rc = 0
              · cases hval : ext.validate_ok img slot with
                | true =>
                  rw [selectLoopXip_revert_accept_valid cfg ext img fuel st slot
                    hc1 hcand hc2 hc3 hc4' hrev hc6 hval]
                  refine ⟨ActivesOk_setSwap hAc, fun _ => ?_⟩
                  rw [selState, setSwap_active, setActive_usage_same]
                  exact slot_lt_ne_none hlt
                | false =>
                  rw [selectLoopXip_revert_accept_invalid cfg ext img fuel st slot
                    hc1 hcand hc2 hc3 hc4' hrev hc6 hval]
                  simp only [selState_withTr, selIsDone_withTr]
                  refine ih _ (ActivesOk_reject_any hA (fun j hj => ?_) rfl)
                  rw [setSwap_usage_other _ img _ j hj,
                    setActive_usage_other st img slot j hj]
              · have htrig := (select_or_erase_rc_iff (ext.trailer img slot)
                  ((st.areas img slot).fa_size)
                  (ext.write_copy_done_ok img slot)).mp hc6
                rw [selectLoopXip_revert_reject cfg ext img fuel st slot hrev hc1
                  hcand hc2 hc3 hc4' htrig]
                simp only [selState_withTr, selIsDone_withTr]
                refine ih _ (ActivesOk_reject_any hA (fun j hj => ?_) rfl)
                rw [setSwap_usage_other _ img _ j hj,
                  setActive_usage_other st img slot j hj]
            | false =>
              cases hval : ext.validate_ok img slot with
              | true =>
                rw [selectLoopXip_norevert_valid cfg ext img fuel st slot hc1
                  hcand hc2 hc3 hc4' hrev hval]
                refine ⟨hAc, fun _ => ?_⟩
                rw [selState, setActive_usage_same]
                exact slot_lt_ne_none hlt
              | false =>
                rw [selectLoopXip_norevert_invalid cfg ext img fuel st slot hc1
                  hcand hc2 hc3 hc4' hrev hval]
                simp only [selState_withTr, selIsDone_withTr]
                exact ih _ (ActivesOk_reject_any hA
                  (fun j hj => setActive_usage_other st img slot j hj) rfl)
    · rw [selectLoopXip_done_active cfg ext img fuel st hc1]
      exact ⟨hA, fun _ => hc1⟩

lemma loadImagesGoXip_keeps_committed (cfg : Config) (ext : Externals)
    (innerFuel : Nat) :
    ∀ (l : List Nat) (st : BootLoaderState) (i : Nat),
      (st.slot_usage i).active_slot ≠ BOOT_SLOT_NONE →
      ((selState (loadImagesGoXip cfg ext innerFuel st l)).slot_usage i).active_slot
        ≠ BOOT_SLOT_NONE := by
  intro l
  induction l with
  | nil => intro st i h; exact h
  | cons j rest ih =>
    intro st i h
    have hk := selectLoopXip_keeps_committed cfg ext j innerFuel st i h
    cases hsel : selectLoopXip cfg ext j innerFuel st with
    | fail st' tr => rw [hsel] at hk; simp only [loadImagesGoXip, hsel]; exact hk
    | outOfFuel st' tr =>
      rw [hsel] at hk; simp only [loadImagesGoXip, hsel]; exact hk
    | done st' tr =>
      rw [hsel] at hk
      simp only [loadImagesGoXip, hsel, selState_withTr]
      exact ih st' i hk

lemma loadImagesGoXip_post (cfg : Config) (ext : Externals)
    (innerFuel : Nat) (hreg : RegularHook ext) :
    ∀ (l : List Nat) (st : BootLoaderState), ActivesOk st →
      ActivesOk (selState (loadImagesGoXip cfg ext innerFuel st l)) ∧
      (selIsDone (loadImagesGoXip cfg ext innerFuel st l) = true →
        ∀ i ∈ l,
          ((selState (loadImagesGoXip cfg ext innerFuel st l)).slot_usage i).active_slot
            ≠ BOOT_SLOT_NONE) := by
  intro l
  induction l with
  | nil => intro st hA; exact ⟨hA, fun _ i hi => absurd hi (List.not_mem_nil i)⟩
  | cons j rest ih =>
    intro st hA
    have hpost := selectLoopXip_post cfg ext j (hreg j) innerFuel st hA
    cases hsel : selectLoopXip cfg ext j innerFuel st with
    | fail st' tr =>
      rw [hsel] at hpost
      simp only [loadImagesGoXip, hsel]
      exact ⟨hpost.1, fun h => absurd h (by simp [selIsDone])⟩
    | outOfFuel st' tr =>
      rw [hsel] at hpost
      simp only [loadImagesGoXip, hsel]
      exact ⟨hpost.1, fun h => absurd h (by simp [selIsDone])⟩
    | done st' tr =>
      rw [hsel] at hpost
      simp only [loadImagesGoXip, hsel, selState_withTr, selIsDone_withTr]
      obtain ⟨hA', hD⟩ := ih st' hpost.1
      refine ⟨hA', fun hd i hi => ?_⟩
      rcases List.mem_cons.mp hi with hij | hir
      · subst hij
        exact loadImagesGoXip_keeps_committed cfg ext innerFuel rest st' i
          (hpost.2 rfl)
      · exact hD hd i hir

lemma selectLoopXip_noOut (cfg : Config) (ext : Externals) (img : Nat)
    (hreg : ext.hook img = none) :
    ∀ (fuel : Nat) (st : BootLoaderState),
      availCount st img + 2 ≤ fuel →
      selIsOut (selectLoopXip cfg ext img fuel st) = false := by
  intro fuel
  induction fuel with
  | zero => intro st hf; omega
  | succ fuel ih =>
    intro st hf
    by_cases hc1 : (st.slot_usage img).active_slot = BOOT_SLOT_NONE
    · have hcand : candidateSlot ext st img =
          find_slot_with_highest_version st img := by
        rw [candidateSlot, hreg]
      by_cases hc2 : find_slot_with_highest_version st img = BOOT_SLOT_NONE
      · rw [selectLoopXip_fail_none cfg ext img fuel st hc1 (hcand.trans hc2)]
        rfl
      · obtain ⟨hlt, hav⟩ := find_slot_avail st img hc2
        set slot := find_slot_with_highest_version st img with hF
        have hlt2 : slot < 2 := hlt
        have hcnt : 1 ≤ availCount st img := by
          rcases (by omega : slot = 0 ∨ slot = 1) with h | h <;>
            rw [h] at hav <;> unfold availCount <;> simp [hav]
        have hfuel1 : 1 ≤ fuel := by omega
        by_cases hc3 : 1 < st.num_images ∧ st.img_mask img = true
        · rw [selectLoopXip_masked cfg ext img fuel st slot hc1 hcand hc2 hc3]
          simp only [selIsOut_withTr]
          obtain ⟨fuel2, rfl⟩ : ∃ f2, fuel = f2 + 1 :=
            ⟨fuel - 1, by omega⟩
          have hact : ¬ ((setActive st img slot).slot_usage img).active_slot
              = BOOT_SLOT_NONE := by
            rw [setActive_usage_same]
            exact slot_lt_ne_none hlt
          rw [selectLoopXip_done_active cfg ext img fuel2 _ hact]
          rfl
        · have hrej : ∀ st1, (∀ i s, (st1.slot_usage i).slot_available s =
              ((setActive st img slot).slot_usage i).slot_available s) →
              availCount (rejectSlot st1 img slot) img + 2 ≤ fuel := by
            intro st1 hst1
            have he : availCount st1 img = availCount st img := by
              refine (availCount_congr (fun s => ?_)).trans
                (availCount_congr (fun s => setActive_avail st img slot img s))
              exact hst1 img s
            have hav1 : (st1.slot_usage img).slot_available slot = true := by
              rw [hst1 img slot, setActive_avail]
              exact hav
            have := availCount_reject st1 img slot hlt2 hav1
            omega
          by_cases hc4 : boot_rom_address_check (setActive st img slot) img = true
          · rw [selectLoopXip_rom_reject cfg ext img fuel st slot hc1 hcand hc2
              hc3 hc4]
            simp only [selIsOut_withTr]
            exact ih _ (hrej (setActive st img slot) (fun _ _ => rfl))
          · have hc4' : boot_rom_address_check (setActive st img slot) img = false := by
              simpa using hc4
            cases hrev : cfg.revert with
            | true =>
              set r := boot_select_or_erase (ext.trailer img slot)
                ((st.areas img slot).fa_size)
                (ext.write_copy_done_ok img slot) with hr
              by_cases hc6 : r.rc = 0
              · cases hval : ext.validate_ok img slot with
                | true =>
                  rw [selectLoopXip_revert_accept_valid cfg ext img fuel st slot
                    hc1 hcand hc2 hc3 hc4' hrev hc6 hval]
                  rfl
                | false =>
                  rw [selectLoopXip_revert_accept_invalid cfg ext img fuel st slot
                    hc1 hcand hc2 hc3 hc4' hrev hc6 hval]
                  simp only [selIsOut_withTr]
                  exact ih _ (hrej _ (fun i s => setSwap_avail _ _ _ _ _))
              · have htrig := (select_or_erase_rc_iff (ext.trailer img slot)
                  ((st.areas img slot).fa_size)
                  (ext.write_copy_done_ok img slot)).mp hc6
                rw [selectLoopXip_revert_reject cfg ext img fuel st slot hrev hc1
                  hcand hc2 hc3 hc4' htrig]
                simp only [selIsOut_withTr]
                exact ih _ (hrej _ (fun i s => setSwap_avail _ _ _ _ _))
            | false =>
              cases hval : ext.validate_ok img slot with
              | true =>
                rw [selectLoopXip_norevert_valid cfg ext img fuel st slot hc1
                  hcand hc2 hc3 hc4' hrev hval]
                rfl
              | false =>
                rw [selectLoopXip_norevert_invalid cfg ext img fuel st slot hc1
                  hcand hc2 hc3 hc4' hrev hval]
                simp only [selIsOut_withTr]
                exact ih _ (hrej (setActive st img slot) (fun _ _ => rfl))
    · rw [selectLoopXip_done_active cfg ext img fuel st hc1]
      rfl

lemma loadImagesGoXip_noOut (cfg : Config) (ext : Externals)
    (innerFuel : Nat) (hreg : RegularHook ext) (hf : 4 ≤ innerFuel) :
    ∀ (l : List Nat) (st : BootLoaderState),
      selIsOut (loadImagesGoXip cfg ext innerFuel st l) = false := by
  intro l
  induction l with
  | nil => intro st; rfl
  | cons i rest ih =>
    intro st
    have hno := selectLoopXip_noOut cfg ext i (hreg i) innerFuel st
      (by have := availCount_le_two st i; omega)
    cases hsel : selectLoopXip cfg ext i innerFuel st with
    | fail st' tr => simp only [loadImagesGoXip, hsel]; rfl
    | outOfFuel st' tr =>
      rw [hsel] at hno
      exact absurd hno (by simp [selIsOut])
    | done st' tr =>
      simp only [loadImagesGoXip, hsel, selIsOut_withTr]
      exact ih st'

lemma verifyDepsGo_fail_exists (deps : Nat → Nat → List RawTlv) (ram : Bool)
    (st : BootLoaderState) :
    ∀ (l : List Nat) (rc0 : Int),
      (∀ i ∈ l, st.img_mask i = false) →
      (verifyDepsGo deps ram st l rc0).1 ≠ 0 →
      (∃ i ∈ l, (verifyDepsGo deps ram st l rc0).2.1 =
        rejectSlot st i ((st.slot_usage i).active_slot)) ∨ l = [] := by
  intro l
  induction l with
  | nil => intro rc0 _ _; right; rfl
  | cons i rest ih =>
    intro rc0 hm hne
    have hmi : st.img_mask i = false := hm i (List.mem_cons_self i rest)
    rw [verifyDepsGo, if_neg (by simp [hmi])] at hne ⊢
    by_cases hrc : boot_verify_slot_dependencies_xip_ram deps st i
        ((st.slot_usage i).active_slot) ≠ 0
    · rw [if_pos hrc] at hne ⊢
      exact Or.inl ⟨i, List.mem_cons_self i rest, rfl⟩
    · rw [if_neg hrc] at hne ⊢
      rcases ih _ (fun j hj => hm j (List.mem_cons_of_mem i hj)) hne with
        ⟨j, hj, heq⟩ | hnil
      · exact Or.inl ⟨j, List.mem_cons_of_mem i hj, heq⟩
      · subst hnil
        rw [verifyDepsGo] at hne
        exact absurd hne hrc

lemma verifyDeps_fail_measure (deps : Nat → Nat → List RawTlv) (ram : Bool)
    (st : BootLoaderState)
    (hmask : ∀ i, i < st.num_images → st.img_mask i = false)
    (hall : AllCommitted st) (hAok : ActivesOk st)
    (hn : 1 ≤ st.num_images)
    (hd : (boot_verify_dependencies_xip_ram deps ram st).1 ≠ 0) :
    availTotal ((boot_verify_dependencies_xip_ram deps ram st).2.1) + 1 =
      availTotal st ∧
    ActivesOk ((boot_verify_dependencies_xip_ram deps ram st).2.1) ∧
    ((boot_verify_dependencies_xip_ram deps ram st).2.1).num_images =
      st.num_images ∧
    ((boot_verify_dependencies_xip_ram deps ram st).2.1).img_mask =
      st.img_mask := by
  rcases verifyDepsGo_fail_exists deps ram st (List.range st.num_images) (-1)
      (fun i hi => hmask i (List.mem_range.mp hi)) hd with
    ⟨i, hi, heq⟩ | hnil
  · have hi' : i < st.num_images := List.mem_range.mp hi
    rcases hAok i hi' with hnone | ⟨hlt, hav⟩
    · exact absurd hnone (hall i hi')
    · rw [boot_verify_dependencies_xip_ram] at *
      rw [heq]
      refine ⟨availTotal_reject st i _ hi' hlt hav, ?_, rfl, rfl⟩
      exact ActivesOk_reject_any hAok (fun _ _ => rfl) rfl
  · rw [List.range_eq_nil] at hnil
    omega

lemma depLoopXip_bound (cfg : Config) (ext : Externals)
    (hreg : RegularHook ext) :
    ∀ (fuel : Nat) (st : BootLoaderState),
      NoMask st → ActivesOk st → 2 ≤ st.num_images →
      ((availTotal st < st.num_images ∧ 1 ≤ fuel) ∨
       (st.num_images ≤ availTotal st ∧
        availTotal st - st.num_images + 2 ≤ fuel)) →
      loopTimedOut (depLoopXip cfg ext 4 fuel st) = false := by
  intro fuel
  induction fuel with
  | zero =>
    intro st _ _ _ hcase
    rcases hcase with ⟨_, h⟩ | ⟨_, h⟩ <;> omega
  | succ fuel ih =>
    intro st hm hA hn2 hcase
    cases h : boot_load_and_validate_images_xip cfg ext 4 st with
    | fail st' tr => simp only [depLoopXip, h]; rfl
    | outOfFuel st' tr =>
      have hno := loadImagesGoXip_noOut cfg ext 4 hreg (le_refl 4)
        (List.range st.num_images) st
      rw [show loadImagesGoXip cfg ext 4 st (List.range st.num_images) =
        SelOutcome.outOfFuel st' tr from h] at hno
      exact absurd hno (by simp [selIsOut])
    | done st' tr =>
      have hframe := loadImagesGoXip_frame cfg ext 4 (List.range st.num_images) st
      have hpost := loadImagesGoXip_post cfg ext 4 hreg (List.range st.num_images) st hA
      rw [show loadImagesGoXip cfg ext 4 st (List.range st.num_images) =
        SelOutcome.done st' tr from h] at hframe hpost
      have hnum : st'.num_images = st.num_images := hframe.1.1
      have hmaskeq : st'.img_mask = st.img_mask := hframe.1.2.1
      have hm' : NoMask st' := by
        intro i hi
        rw [hmaskeq]
        rw [hnum] at hi
        exact hm i hi
      have hA' : ActivesOk st' := hpost.1
      have hcom : ∀ i, i < st'.num_images →
          (st'.slot_usage i).active_slot ≠ BOOT_SLOT_NONE := by
        intro i hi
        refine hpost.2 rfl i ?_
        rw [hnum] at hi
        exact List.mem_range.mpr hi
      have hge : st'.num_images ≤ availTotal st' := by
        refine availTotal_ge st' (fun i hi => ?_)
        rcases hA' i hi with hnone | ⟨hlt, hav⟩
        · exact absurd hnone (hcom i hi)
        · exact availCount_pos hlt hav
      have hmono : availTotal st' ≤ availTotal st :=
        availTotal_mono hframe.2 hnum
      have hn2' : 1 < st'.num_images := by omega
      by_cases hd : (boot_verify_dependencies_xip_ram ext.deps false st').1 ≠ 0
      · have heq : depLoopXip cfg ext 4 (fuel + 1) st =
            withTrL (tr ++ (boot_verify_dependencies_xip_ram ext.deps false st').2.2)
              (depLoopXip cfg ext 4 fuel
                (boot_verify_dependencies_xip_ram ext.deps false st').2.1) := by
          simp only [depLoopXip, h]
          rw [if_pos hn2', if_pos hd]
        rw [heq]
        simp only [loopTimedOut_withTrL]
        obtain ⟨hdec, hA'', hnum2, hmask2⟩ := verifyDeps_fail_measure ext.deps
          false st' hm' (fun i hi => hcom i hi) hA' (by omega) hd
        apply ih
        · intro i hi
          rw [hmask2]
          refine hm' i ?_
          rw [← hnum2]
          exact hi
        · exact hA''
        · omega
        · rcases hcase with ⟨hltA, _⟩ | ⟨hgeB, hfB⟩
          · exfalso; omega
          · by_cases hc : availTotal
                ((boot_verify_dependencies_xip_ram ext.deps false st').2.1) <
                ((boot_verify_dependencies_xip_ram ext.deps false st').2.1).num_images
            · exact Or.inl ⟨hc, by omega⟩
            · exact Or.inr ⟨by omega, by omega⟩
      · have heq : depLoopXip cfg ext 4 (fuel + 1) st =
            LoopOutcome.ok
              (boot_verify_dependencies_xip_ram ext.deps false st').2.1
              (tr ++ (boot_verify_dependencies_xip_ram ext.deps false st').2.2) := by
          simp only [depLoopXip, h]
          rw [if_pos hn2', if_neg hd]
        rw [heq]
        rfl

/-- Claim C5 (amended): a pass of `boot_verify_dependencies_xip_ram`
that returns nonzero over a post-selection state (no masked images,
every image committed to an available slot) clears a `slot_available`
entry that was true; consequently, with default-policy candidates, the
orchestrator's outer dependency-retry loop terminates within
`2 · N_images` iterations for any initial availability bitmap and any
dependency graph. With masked images the nonzero vacuous pass clears
nothing and the loop need not terminate. -/
theorem dependency_loop_bound :
    (∀ (deps : Nat → Nat → List RawTlv) (ram : Bool) (st : BootLoaderState),
      (∀ i, i < st.num_images → st.img_mask i = false) →
      AllCommitted st → ActivesOk st → 1 ≤ st.num_images →
      (boot_verify_dependencies_xip_ram deps ram st).1 ≠ 0 →
      ∃ i s, i < st.num_images ∧ s < BOOT_NUM_SLOTS ∧
        (st.slot_usage i).slot_available s = true ∧
        (((boot_verify_dependencies_xip_ram deps ram st).2.1).slot_usage i).slot_available s
          = false) ∧
    (∀ (cfg : Config) (ext : Externals) (st : BootLoaderState),
      RegularHook ext →
      (∀ i, i < st.num_images → st.img_mask i = false) →
      (∀ i, i < st.num_images →
        (st.slot_usage i).active_slot = BOOT_SLOT_NONE) →
      2 ≤ st.num_images →
      loopTimedOut (depLoopXip cfg ext 4 (2 * st.num_images) st) = false) := by
  constructor
  · intro deps ram st hmask hall hAok hn hd
    rcases verifyDepsGo_fail_exists deps ram st (List.range st.num_images) (-1)
        (fun i hi => hmask i (List.mem_range.mp hi)) hd with
      ⟨i, hi, heq⟩ | hnil
    · have hi' : i < st.num_images := List.mem_range.mp hi
      rcases hAok i hi' with hnone | ⟨hlt, hav⟩
      · exact absurd hnone (hall i hi')
      · refine ⟨i, (st.slot_usage i).active_slot, hi', hlt, hav, ?_⟩
        rw [boot_verify_dependencies_xip_ram] at *
        rw [heq]
        exact rejectSlot_avail_cleared st i _
    · rw [List.range_eq_nil] at hnil
      omega
  · intro cfg ext st hreg hm hact hn2
    have hle := availTotal_le_twice st
    refine depLoopXip_bound cfg ext hreg (2 * st.num_images) st hm
      (fun i hi => Or.inl (hact i hi)) hn2 ?_
    by_cases hc : availTotal st < st.num_images
    · exact Or.inl ⟨hc, by omega⟩
    · exact Or.inr ⟨by omega, by omega⟩

/-- Witness for claim C5's amended theorem: a failing dependency pass
over a concrete committed state clears a true entry, and a concrete
two-image regular-hook run finishes within `2 · N` outer iterations. -/
theorem dependency_loop_bound_witness :
    (∃ i s, i < stTwoCommitted.num_images ∧ s < BOOT_NUM_SLOTS ∧
      (stTwoCommitted.slot_usage i).slot_available s = true ∧
      (((boot_verify_dependencies_xip_ram depsNeedTwo false stTwoCommitted).2.1).slot_usage i).slot_available s
        = false) ∧
    loopTimedOut (depLoopXip cfgPlain extBase 4
      (2 * (stAvail 2).num_images) (stAvail 2)) = false :=
  ⟨dependency_loop_bound.1 depsNeedTwo false stTwoCommitted
    (fun _ _ => rfl)
    (fun _ _ => (by decide : (0 : Nat) ≠ BOOT_SLOT_NONE))
    (fun _ _ => Or.inr ⟨(by decide : (0 : Nat) < BOOT_NUM_SLOTS), rfl⟩)
    (by decide) (by decide),
   dependency_loop_bound.2 cfgPlain extBase (stAvail 2) (fun _ => rfl)
    (fun _ _ => rfl) (fun _ _ => rfl) (by decide)⟩

/-- Counterexample for claim C5 as stated: with every image masked (and
both slots available), the dependency sweep returns nonzero while
clearing no `slot_available` entry at all, and the outer retry loop is
still spinning after `2 · N_images = 4` iterations — the claimed bound
fails. -/
theorem dependency_loop_counterexample :
    stAllMasked.num_images = 2 ∧
    loopTimedOut (depLoopXip cfgPlain extBase 4 4 stAllMasked) = true ∧
    (boot_verify_dependencies_xip_ram extBase.deps false
      (selState (boot_load_and_validate_images_xip cfgPlain extBase 4
        stAllMasked))).1 ≠ 0 ∧
    (((boot_verify_dependencies_xip_ram extBase.deps false
      (selState (boot_load_and_validate_images_xip cfgPlain extBase 4
        stAllMasked))).2.1.slot_usage 0).slot_available 0 = true ∧
     ((boot_verify_dependencies_xip_ram extBase.deps false
      (selState (boot_load_and_validate_images_xip cfgPlain extBase 4
        stAllMasked))).2.1.slot_usage 0).slot_available 1 = true ∧
     ((boot_verify_dependencies_xip_ram extBase.deps false
      (selState (boot_load_and_validate_images_xip cfgPlain extBase 4
        stAllMasked))).2.1.slot_usage 1).slot_available 0 = true ∧
     ((boot_verify_dependencies_xip_ram extBase.deps false
      (selState (boot_load_and_validate_images_xip cfgPlain extBase 4
        stAllMasked))).2.1.slot_usage 1).slot_available 1 = true) := by
  refine ⟨rfl, by decide, by decide, by decide, by decide, by decide, by decide⟩

/-- Claim C4 (amended): during one boot, after the initial header scan,
`slot_available` only ever transitions true → false, never
false → true; and when candidates come from the default policy (the
find-slot hook answers regular), a slot whose availability flag is
false is never committed as `active_slot`, every cleared slot stays
unavailable, and no slot is committed at or after the moment it was
cleared. A hook-resolved candidate, however, is adopted without any
availability check, so the guarantee does not extend to hook-supplied
slots. -/
theorem slot_availability_monotone :
    (∀ (cfg : Config) (ext : Externals) (fI fO : Nat) (st : BootLoaderState)
       (i s : Nat),
      ((loopState (depLoopXip cfg ext fI fO st)).slot_usage i).slot_available s
          = true →
      (st.slot_usage i).slot_available s = true) ∧
    (∀ (cfg : Config) (ext : Externals) (fI fO : Nat) (st : BootLoaderState),
      RegularHook ext →
      (∀ i s, (st.slot_usage i).slot_available s = false →
        Ev.commit i s ∉ loopTrace (depLoopXip cfg ext fI fO st)) ∧
      (∀ i s, Ev.clear i s ∈ loopTrace (depLoopXip cfg ext fI fO st) →
        ((loopState (depLoopXip cfg ext fI fO st)).slot_usage i).slot_available s
          = false) ∧
      NoCommitAfterClear (loopTrace (depLoopXip cfg ext fI fO st))) := by
  constructor
  · intro cfg ext fI fO st i s h
    exact (depLoopXip_frame cfg ext fI fO st).2 i s h
  · intro cfg ext fI fO st hreg
    obtain ⟨_, hc, hcl, hn⟩ := depLoopXip_goodRun cfg ext fI hreg fO st
    exact ⟨hc, hcl, hn⟩

/-- Witness for claim C4's amended theorem at a concrete two-image
regular-hook run. -/
theorem slot_availability_monotone_witness :
    (∀ i s, ((stAvail 2).slot_usage i).slot_available s = false →
      Ev.commit i s ∉ loopTrace (depLoopXip cfgPlain extBase 4 4 (stAvail 2))) ∧
    (∀ i s, Ev.clear i s ∈ loopTrace (depLoopXip cfgPlain extBase 4 4 (stAvail 2)) →
      ((loopState (depLoopXip cfgPlain extBase 4 4 (stAvail 2))).slot_usage i).slot_available s
        = false) ∧
    NoCommitAfterClear (loopTrace (depLoopXip cfgPlain extBase 4 4 (stAvail 2))) :=
  slot_availability_monotone.2 cfgPlain extBase 4 4 (stAvail 2) (fun _ => rfl)

/-- Counterexample for claim C4 as stated: with a find-slot hook that
resolves slot 0, the header scan leaves slot 0 of image 0 unavailable
(`slot_available = false`), yet the selection loop commits exactly that
slot as the image's `active_slot` — an unavailable slot is chosen after
the moment its flag was (initialized) false, through the hook path the
claim explicitly includes. -/
theorem hook_commits_unavailable_slot_counterexample :
    (((boot_get_slot_usage extHookZero (stBase 1)).2.slot_usage 0).slot_available 0
       = false) ∧
    selTrace (selectLoopXip cfgPlain extHookZero 0 4
        (boot_get_slot_usage extHookZero (stBase 1)).2) = [Ev.commit 0 0] ∧
    ((selState (selectLoopXip cfgPlain extHookZero 0 4
        (boot_get_slot_usage extHookZero (stBase 1)).2)).slot_usage 0).active_slot
      = 0 := by
  refine ⟨by decide, by decide, by decide⟩

/-! ## The rollback-protection gate -/

/-- Claim C2: in DIRECT_XIP with revert enabled,
`boot_update_hw_rollback_protection_xip_ram` calls the
security-counter update iff the recorded swap state has
`image_ok = set`; with `image_ok ≠ set` it returns 0 without touching
the counter. -/
theorem rollback_protection_gated_on_image_ok (lock : Bool)
    (image_ok : BootFlag) (update_rc lock_rc : Int) :
    ((boot_update_hw_rollback_protection_xip_ram true true lock image_ok
        update_rc lock_rc).called_update = true ↔ image_ok = BootFlag.set) ∧
    (image_ok ≠ BootFlag.set →
      boot_update_hw_rollback_protection_xip_ram true true lock image_ok
          update_rc lock_rc =
        { rc := 0, called_update := false, called_lock := false }) := by
  cases image_ok <;>
    simp [boot_update_hw_rollback_protection_xip_ram] <;>
    split_ifs <;> simp_all

/-- Witness for claim C2's theorem: an unconfirmed image leaves the
counter alone and succeeds. -/
theorem rollback_protection_gated_on_image_ok_witness :
    boot_update_hw_rollback_protection_xip_ram true true false BootFlag.unset
        5 7 = { rc := 0, called_update := false, called_lock := false } :=
  (rollback_protection_gated_on_image_ok false BootFlag.unset 5 7).2 (by decide)

/-! ## The accept branch of the revert/erase gate -/

/-- Claim C8: in the accept branch of `boot_select_or_erase` (magic
good and not an unconfirmed selection), a `copy_done ≠ set` trailer
triggers a `copy_done` write; a failed write still yields `rc = 0` (the
image boots anyway), and a `bad` `copy_done` behaves exactly like
`unset`. -/
theorem select_or_erase_accept_branch (sw : BootSwapState) (size : Nat)
    (hmagic : sw.magic = BootMagic.good) (hcd : sw.copy_done ≠ BootFlag.set) :
    (∀ wok, (boot_select_or_erase sw size wok).copy_done_write = some wok) ∧
    (boot_select_or_erase sw size false).rc = 0 ∧
    (boot_select_or_erase sw size false).scrambled = none ∧
    (∀ wok,
      (boot_select_or_erase { sw with copy_done := BootFlag.bad } size wok).rc =
        (boot_select_or_erase { sw with copy_done := BootFlag.unset } size wok).rc ∧
      (boot_select_or_erase { sw with copy_done := BootFlag.bad } size wok).scrambled =
        (boot_select_or_erase { sw with copy_done := BootFlag.unset } size wok).scrambled ∧
      (boot_select_or_erase { sw with copy_done := BootFlag.bad } size wok).copy_done_write =
        (boot_select_or_erase { sw with copy_done := BootFlag.unset } size wok).copy_done_write) := by
  have hcond : ¬ (sw.magic ≠ BootMagic.good ∨
      (sw.copy_done = BootFlag.set ∧ sw.image_ok ≠ BootFlag.set)) := by
    rw [hmagic]
    rintro (h | ⟨h, _⟩)
    · exact h rfl
    · exact hcd h
  refine ⟨fun wok => ?_, ?_, ?_, fun wok => ?_⟩
  · simp [boot_select_or_erase, hcond, hcd, hmagic]
  · simp [boot_select_or_erase, hcond, hcd, hmagic]
  · simp [boot_select_or_erase, hcond, hcd, hmagic]
  · cases sw
    simp_all [boot_select_or_erase]

/-- Witness for claim C8's theorem at the trailer
`(good, unset, unset)` with a failing `copy_done` write. -/
theorem select_or_erase_accept_branch_witness :
    (boot_select_or_erase ⟨BootMagic.good, 0, BootFlag.unset, BootFlag.unset⟩
       4096 false).rc = 0 :=
  (select_or_erase_accept_branch
    ⟨BootMagic.good, 0, BootFlag.unset, BootFlag.unset⟩ 4096
    (by decide) (by decide)).2.1

/-! ## RAM_LOAD: behaviour on a failed load to SRAM -/

lemma removeFromSram_not_in_gateEvs (img slot : Nat) (r : SelectOrEraseResult)
    (i : Nat) : Ev.removeFromSram i ∉ gateEvs img slot r := by
  unfold gateEvs
  rcases hs : r.scrambled with _ | ⟨off, len⟩ <;>
    rcases hw : r.copy_done_write with _ | ok <;> simp

lemma selectLoopRam_load_fail_norevert (cfg : Config) (ext : Externals)
    (img fuel : Nat) (st : BootLoaderState) (slot : Nat)
    (hrev : cfg.revert = false)
    (hact : (st.slot_usage img).active_slot = BOOT_SLOT_NONE)
    (hcand : candidateSlot ext st img = slot)
    (hslot : ¬ slot = BOOT_SLOT_NONE)
    (hmask : ¬ (1 < st.num_images ∧ st.img_mask img = true))
    (hload : ext.load_to_sram_ok img slot = false) :
    selectLoopRam cfg ext img (fuel + 1) st =
      withTr [Ev.commit img slot, Ev.removeFromFlash img slot,
              Ev.clear img slot]
        (selectLoopRam cfg ext img fuel
          (rejectSlot (setActive st img slot) img slot)) := by
  simp only [selectLoopRam, hcand, hact, hrev]
  rw [if_neg (by simp), if_neg hslot, if_neg (by simpa using hmask),
    if_neg (by simp), if_pos (by simp [hload])]

lemma selectLoopRam_load_fail_revert (cfg : Config) (ext : Externals)
    (img fuel : Nat) (st : BootLoaderState) (slot : Nat)
    (hrev : cfg.revert = true)
    (hact : (st.slot_usage img).active_slot = BOOT_SLOT_NONE)
    (hcand : candidateSlot ext st img = slot)
    (hslot : ¬ slot = BOOT_SLOT_NONE)
    (hmask : ¬ (1 < st.num_images ∧ st.img_mask img = true))
    (hpass : ¬ ((ext.trailer img slot).magic ≠ BootMagic.good ∨
                ((ext.trailer img slot).copy_done = BootFlag.set ∧
                 (ext.trailer img slot).image_ok ≠ BootFlag.set)))
    (hload : ext.load_to_sram_ok img slot = false) :
    selectLoopRam cfg ext img (fuel + 1) st =
      withTr (Ev.commit img slot ::
              gateEvs img slot (boot_select_or_erase (ext.trailer img slot)
                ((st.areas img slot).fa_size)
                (ext.write_copy_done_ok img slot)) ++
              [Ev.removeFromFlash img slot, Ev.clear img slot])
        (selectLoopRam cfg ext img fuel
          (rejectSlot (setSwap (setActive st img slot) img
            (boot_select_or_erase (ext.trailer img slot)
              ((st.areas img slot).fa_size)
              (ext.write_copy_done_ok img slot)).recorded) img slot)) := by
  have hrc : (boot_select_or_erase (ext.trailer img slot)
      ((st.areas img slot).fa_size)
      (ext.write_copy_done_ok img slot)).rc = 0 := by
    by_contra h
    exact hpass ((select_or_erase_rc_iff _ _ _).mp h)
  simp only [selectLoopRam, hcand, hact, hrev]
  rw [if_neg (by simp), if_neg hslot, if_neg (by simpa using hmask),
    if_pos trivial, if_neg (by simp [hrc]), if_pos (by simp [hload])]

/-- Claim C7 (amended): in RAM_LOAD mode, whenever
`boot_load_image_to_sram` fails for the tentative active slot, the
selector scrubs the flash copy via `boot_remove_image_from_flash`,
marks that slot unavailable, resets `active_slot` to
`BOOT_SLOT_NONE`, and continues scanning — but it does not remove the
image from RAM (`boot_remove_image_from_sram` runs only on validation
failure). -/
theorem ram_load_failure_handling (cfg : Config) (ext : Externals)
    (img fuel : Nat) (st : BootLoaderState) (slot : Nat)
    (hact : (st.slot_usage img).active_slot = BOOT_SLOT_NONE)
    (hcand : candidateSlot ext st img = slot)
    (hslot : ¬ slot = BOOT_SLOT_NONE)
    (hmask : ¬ (1 < st.num_images ∧ st.img_mask img = true))
    (hgate : cfg.revert = true →
      ¬ ((ext.trailer img slot).magic ≠ BootMagic.good ∨
         ((ext.trailer img slot).copy_done = BootFlag.set ∧
          (ext.trailer img slot).image_ok ≠ BootFlag.set)))
    (hload : ext.load_to_sram_ok img slot = false) :
    ∃ evs st2,
      selectLoopRam cfg ext img (fuel + 1) st =
        withTr evs (selectLoopRam cfg ext img fuel st2) ∧
      Ev.removeFromFlash img slot ∈ evs ∧
      Ev.clear img slot ∈ evs ∧
      Ev.removeFromSram img ∉ evs ∧
      (st2.slot_usage img).slot_available slot = false ∧
      (st2.slot_usage img).active_slot = BOOT_SLOT_NONE := by
  cases hrev : cfg.revert with
  | false =>
    refine ⟨[Ev.commit img slot, Ev.removeFromFlash img slot, Ev.clear img slot],
      rejectSlot (setActive st img slot) img slot,
      selectLoopRam_load_fail_norevert cfg ext img fuel st slot hrev hact hcand
        hslot hmask hload, by simp, by simp, by simp, by simp, by simp⟩
  | true =>
    refine ⟨Ev.commit img slot ::
        gateEvs img slot (boot_select_or_erase (ext.trailer img slot)
          ((st.areas img slot).fa_size) (ext.write_copy_done_ok img slot)) ++
        [Ev.removeFromFlash img slot, Ev.clear img slot],
      rejectSlot (setSwap (setActive st img slot) img
        (boot_select_or_erase (ext.trailer img slot)
          ((st.areas img slot).fa_size)
          (ext.write_copy_done_ok img slot)).recorded) img slot,
      selectLoopRam_load_fail_revert cfg ext img fuel st slot hrev hact hcand
        hslot hmask (hgate hrev) hload, by simp, by simp, ?_, by simp, by simp⟩
    intro hmem
    rcases List.mem_cons.mp hmem with h | hmem2
    · exact absurd h (by simp)
    rcases List.mem_append.mp hmem2 with h | h
    · exact removeFromSram_not_in_gateEvs _ _ _ _ h
    · simp at h

/-- Witness for claim C7's amended theorem: both slots available, the
SRAM load fails — the step scrubs flash and rejects the slot without
touching SRAM. -/
theorem ram_load_failure_handling_witness :
    ∃ evs st2,
      selectLoopRam cfgPlain extLoadFail 0 (3 + 1) (stAvail 1) =
        withTr evs (selectLoopRam cfgPlain extLoadFail 0 3 st2) ∧
      Ev.removeFromFlash 0 0 ∈ evs ∧
      Ev.clear 0 0 ∈ evs ∧
      Ev.removeFromSram 0 ∉ evs ∧
      (st2.slot_usage 0).slot_available 0 = false ∧
      (st2.slot_usage 0).active_slot = BOOT_SLOT_NONE :=
  ram_load_failure_handling cfgPlain extLoadFail 0 3 (stAvail 1) 0
    (by decide) (by decide) (by decide) (by decide)
    (fun h => by simp [cfgPlain] at h) (by decide)

/-- Counterexample for claim C7 as stated: a concrete RAM_LOAD run in
which every SRAM load fails. The selector's trace shows flash scrubs
and availability clears after each load failure but no
`remove_image_from_sram` call, contradicting the claim that the image
is removed from RAM on load failure. -/
theorem ram_load_failure_no_sram_removal_counterexample :
    selTrace (selectLoopRam cfgPlain extLoadFail 0 4 (stAvail 1)) =
      [Ev.commit 0 0, Ev.removeFromFlash 0 0, Ev.clear 0 0,
       Ev.commit 0 1, Ev.removeFromFlash 0 1, Ev.clear 0 1] ∧
    Ev.removeFromSram 0 ∉
      selTrace (selectLoopRam cfgPlain extLoadFail 0 4 (stAvail 1)) := by
  constructor
  · decide
  · decide

/-! ## The dependency sweep's return value -/

lemma verifyDepsGo_all_ok (deps : Nat → Nat → List RawTlv) (ram : Bool)
    (st : BootLoaderState) :
    ∀ (l : List Nat) (rc : Int),
      (∀ i ∈ l, st.img_mask i = false →
        boot_verify_slot_dependencies_xip_ram deps st i
          ((st.slot_usage i).active_slot) = 0) →
      (verifyDepsGo deps ram st l rc).1 =
        (if l.any (fun i => ! st.img_mask i) then 0 else rc) := by
  intro l
  induction l with
  | nil => intro rc _; simp [verifyDepsGo]
  | cons i rest ih =>
    intro rc h
    by_cases hm : st.img_mask i = true
    · rw [verifyDepsGo, if_pos hm, ih rc (fun j hj hmj => h j (List.mem_cons_of_mem i hj) hmj)]
      simp [hm]
    · have hm' : st.img_mask i = false := by simpa using hm
      have h0 := h i (List.mem_cons_self i rest) hm'
      rw [verifyDepsGo, if_neg (by simp [hm'])]
      rw [if_neg (show ¬ (boot_verify_slot_dependencies_xip_ram deps st i
            ((st.slot_usage i).active_slot) ≠ 0) from by simp [h0])]
      rw [h0, ih 0 (fun j hj hmj => h j (List.mem_cons_of_mem i hj) hmj)]
      simp [hm']

/-- Claim C6 (amended): `boot_verify_dependencies_xip_ram` returns 0
whenever at least one image is non-masked and every non-masked image's
committed slot has all its dependency TLVs satisfied; in the fully
vacuous case in which every image is masked and no slot is checked at
all, it instead returns its initial `rc = -1`. -/
theorem verify_dependencies_done (deps : Nat → Nat → List RawTlv)
    (ram : Bool) (st : BootLoaderState) :
    ((∃ i, i < st.num_images ∧ st.img_mask i = false) →
     (∀ i, i < st.num_images → st.img_mask i = false →
       boot_verify_slot_dependencies_xip_ram deps st i
         ((st.slot_usage i).active_slot) = 0) →
     (boot_verify_dependencies_xip_ram deps ram st).1 = 0) ∧
    ((∀ i, i < st.num_images → st.img_mask i = true) →
     (boot_verify_dependencies_xip_ram deps ram st).1 = -1) := by
  constructor
  · rintro ⟨i, hi, hm⟩ hall
    have hany : ((List.range st.num_images).any fun j => ! st.img_mask j) = true := by
      rw [List.any_eq_true]
      exact ⟨i, List.mem_range.mpr hi, by simp [hm]⟩
    rw [boot_verify_dependencies_xip_ram,
      verifyDepsGo_all_ok deps ram st (List.range st.num_images) (-1)
        (fun j hj hmj => hall j (List.mem_range.mp hj) hmj), if_pos hany]
  · intro hall
    have hany : ¬ ((List.range st.num_images).any fun j => ! st.img_mask j) = true := by
      simp only [List.any_eq_true, not_exists]
      intro j hj
      have hjf : st.img_mask j = false := by simpa using hj.2
      rw [hall j (List.mem_range.mp hj.1)] at hjf
      exact absurd hjf (by simp)
    rw [boot_verify_dependencies_xip_ram,
      verifyDepsGo_all_ok deps ram st (List.range st.num_images) (-1)
        (fun j hj hmj => absurd (hall j (List.mem_range.mp hj)) (by simp [hmj])),
      if_neg hany]

/-- Witness for claim C6's amended theorem: with one non-masked image
whose dependency list is empty the sweep returns 0, and with every
image masked it returns -1. -/
theorem verify_dependencies_done_witness :
    (boot_verify_dependencies_xip_ram (fun _ _ => []) false (stAvail 2)).1 = 0 ∧
    (boot_verify_dependencies_xip_ram (fun _ _ => []) false stAllMasked).1 = -1 :=
  ⟨(verify_dependencies_done (fun _ _ => []) false (stAvail 2)).1
      ⟨0, by decide, rfl⟩ (fun i _ _ => rfl),
   (verify_dependencies_done (fun _ _ => []) false stAllMasked).2
      (fun i _ => rfl)⟩

/-- Counterexample for claim C6 as stated: in the vacuous case (every
image masked, hence every non-masked image's dependencies trivially
satisfied and no slot checked at all) the function returns -1, not 0:
the initial `rc = -1` survives the skipped loop. -/
theorem verify_dependencies_vacuous_counterexample :
    (∀ i, i < stAllMasked.num_images → stAllMasked.img_mask i = true) ∧
    (boot_verify_dependencies_xip_ram (fun _ _ => []) false stAllMasked).1 = -1 ∧
    (boot_verify_dependencies_xip_ram (fun _ _ => []) false stAllMasked).1 ≠ 0 := by
  refine ⟨by decide, by decide, by decide⟩

/-! ## The boot response -/

lemma firstUnmaskedGo_append (st : BootLoaderState) (l1 l2 : List Nat) :
    firstUnmaskedGo st (l1 ++ l2) =
      (match firstUnmaskedGo st l1 with
       | some i => some i
       | none => firstUnmaskedGo st l2) := by
  induction l1 with
  | nil => simp [firstUnmaskedGo]
  | cons a l ih =>
    by_cases h : st.img_mask a = true
    · simp [firstUnmaskedGo, h, ih]
    · simp [firstUnmaskedGo, h]

lemma firstUnmaskedGo_range_none (st : BootLoaderState) :
    ∀ n, firstUnmaskedGo st (List.range n) = none →
      ∀ j, j < n → st.img_mask j = true := by
  intro n
  induction n with
  | zero => intro _ j hj; omega
  | succ n ih =>
    rw [List.range_succ, firstUnmaskedGo_append]
    intro h j hj
    cases hfm : firstUnmaskedGo st (List.range n) with
    | some i => rw [hfm] at h; exact absurd h (by simp)
    | none =>
      rw [hfm] at h
      rcases Nat.lt_succ_iff_lt_or_eq.mp hj with hlt | heq
      · exact ih hfm j hlt
      · subst heq
        by_cases hm : st.img_mask j = true
        · exact hm
        · exact absurd h (by simp [firstUnmaskedGo, hm])

lemma firstUnmasked_some_aux (st : BootLoaderState) :
    ∀ n i, firstUnmaskedGo st (List.range n) = some i →
      i < n ∧ st.img_mask i = false ∧
      ∀ j, j < i → st.img_mask j = true := by
  intro n
  induction n with
  | zero => intro i h; simp [firstUnmaskedGo] at h
  | succ n ih =>
    intro i h
    rw [List.range_succ, firstUnmaskedGo_append] at h
    cases hfm : firstUnmaskedGo st (List.range n) with
    | some k =>
      rw [hfm] at h
      have hk : k = i := by simpa using h
      subst hk
      obtain ⟨h1, h2, h3⟩ := ih k hfm
      exact ⟨by omega, h2, h3⟩
    | none =>
      rw [hfm] at h
      by_cases hm : st.img_mask n = true
      · simp [firstUnmaskedGo, hm] at h
      · have hni : n = i := by simpa [firstUnmaskedGo, hm] using h
        subst hni
        exact ⟨by omega, by simpa using hm,
          fun j hj => firstUnmaskedGo_range_none st n hfm j hj⟩

lemma firstUnmasked_some (st : BootLoaderState) (i : Nat)
    (h : firstUnmasked st = some i) :
    i < st.num_images ∧ st.img_mask i = false ∧
    ∀ j, j < i → st.img_mask j = true :=
  firstUnmasked_some_aux st st.num_images i h

lemma fill_rsp_multi_none (st : BootLoaderState) (rsp : BootRsp)
    (hn : 1 < st.num_images) (h : firstUnmasked st = none) :
    fill_rsp_xip_ram st rsp = rsp := by
  simp [fill_rsp_xip_ram, hn, h]

lemma fill_rsp_multi_some (st : BootLoaderState) (rsp : BootRsp) (i : Nat)
    (hn : 1 < st.num_images) (h : firstUnmasked st = some i) :
    fill_rsp_xip_ram st rsp =
      { br_flash_dev_id :=
          (st.areas i ((st.slot_usage i).active_slot)).fa_device_id,
        br_image_off := (st.areas i ((st.slot_usage i).active_slot)).fa_off,
        br_hdr := st.imgs i ((st.slot_usage i).active_slot) } := by
  simp [fill_rsp_xip_ram, hn, h]

lemma fill_rsp_single (st : BootLoaderState) (rsp : BootRsp)
    (hn : st.num_images ≤ 1) :
    fill_rsp_xip_ram st rsp =
      { br_flash_dev_id :=
          (st.areas 0 ((st.slot_usage 0).active_slot)).fa_device_id,
        br_image_off := (st.areas 0 ((st.slot_usage 0).active_slot)).fa_off,
        br_hdr := st.imgs 0 ((st.slot_usage 0).active_slot) } := by
  simp [fill_rsp_xip_ram, Nat.not_lt.mpr hn]

/-- Claim C9: the boot response is written iff the boot succeeds and a
non-masked image exists. Every failing run of
`context_boot_go_direct_xip` / `context_boot_go_ram_load` leaves `rsp`
unmodified; a successful run rewrites it through `fill_rsp_xip_ram`,
which leaves it untouched when every image is masked and otherwise
sets exactly the flash device id, the slot offset andthe cached header
of the first non-masked image's active slot. -/
theorem boot_response_frame :
    (∀ (cfg : Config) (ext : Externals) (fI fO : Nat)
       (st : BootLoaderState) (rsp : BootRsp) st' rsp' tr,
      context_boot_go_direct_xip cfg ext fI fO st rsp =
        BootOutcome.failure st' rsp' tr → rsp' = rsp) ∧
    (∀ (cfg : Config) (ext : Externals) (fI fO : Nat)
       (st : BootLoaderState) (rsp : BootRsp) st' rsp' tr,
      context_boot_go_ram_load cfg ext fI fO st rsp =
        BootOutcome.failure st' rsp' tr → rsp' = rsp) ∧
    (∀ (cfg : Config) (ext : Externals) (fI fO : Nat)
       (st : BootLoaderState) (rsp : BootRsp) st' rsp' tr,
      context_boot_go_direct_xip cfg ext fI fO st rsp =
        BootOutcome.success st' rsp' tr → rsp' = fill_rsp_xip_ram st' rsp) ∧
    (∀ (cfg : Config) (ext : Externals) (fI fO : Nat)
       (st : BootLoaderState) (rsp : BootRsp) st' rsp' tr,
      context_boot_go_ram_load cfg ext fI fO st rsp =
        BootOutcome.success st' rsp' tr → rsp' = fill_rsp_xip_ram st' rsp) ∧
    (∀ (st : BootLoaderState) (rsp : BootRsp), 1 < st.num_images →
      firstUnmasked st = none → fill_rsp_xip_ram st rsp = rsp) ∧
    (∀ (st : BootLoaderState) (rsp : BootRsp) (i : Nat), 1 < st.num_images →
      firstUnmasked st = some i →
      fill_rsp_xip_ram st rsp =
        { br_flash_dev_id :=
            (st.areas i ((st.slot_usage i).active_slot)).fa_device_id,
          br_image_off := (st.areas i ((st.slot_usage i).active_slot)).fa_off,
          br_hdr := st.imgs i ((st.slot_usage i).active_slot) }) ∧
    (∀ (st : BootLoaderState) (i : Nat), firstUnmasked st = some i →
      i < st.num_images ∧ st.img_mask i = false ∧
      ∀ j, j < i → st.img_mask j = true) := by
  refine ⟨?_, ?_, ?_, ?_, fill_rsp_multi_none, fill_rsp_multi_some,
    firstUnmasked_some⟩
  · intro cfg ext fI fO st rsp st' rsp' tr h
    simp only [context_boot_go_direct_xip] at h
    split at h
    · injection h with h1 h2 h3; exact h2.symm
    · split at h
      · injection h with h1 h2 h3; exact h2.symm
      · split at h
        · simp at h
        · injection h with h1 h2 h3; exact h2.symm
        · split at h
          · injection h with h1 h2 h3; exact h2.symm
          · simp at h
  · intro cfg ext fI fO st rsp st' rsp' tr h
    simp only [context_boot_go_ram_load] at h
    split at h
    · injection h with h1 h2 h3; exact h2.symm
    · split at h
      · injection h with h1 h2 h3; exact h2.symm
      · split at h
        · simp at h
        · injection h with h1 h2 h3; exact h2.symm
        · split at h
          · injection h with h1 h2 h3; exact h2.symm
          · simp at h
  · intro cfg ext fI fO st rsp st' rsp' tr h
    simp only [context_boot_go_direct_xip] at h
    split at h
    · simp at h
    · split at h
      · simp at h
      · split at h
        · simp at h
        · simp at h
        · split at h
          · simp at h
          · injection h with h1 h2 h3
            rw [h2.symm, h1]
  · intro cfg ext fI fO st rsp st' rsp' tr h
    simp only [context_boot_go_ram_load] at h
    split at h
    · simp at h
    · split at h
      · simp at h
      · split at h
        · simp at h
        · simp at h
        · split at h
          · simp at h
          · injection h with h1 h2 h3
            rw [h2.symm, h1]

/-- Witness for claim C9's theorem: with every image masked the filler
leaves a concrete response untouched, and a run whose flash areas fail
to open leaves the response untouched. -/
theorem boot_response_frame_witness :
    fill_rsp_xip_ram stAllMasked ⟨9, 9, hdrPlain⟩ = ⟨9, 9, hdrPlain⟩ ∧
    ((9 : Nat), (9 : Nat)) = (9, 9) :=
  ⟨boot_response_frame.2.2.2.2.1 stAllMasked ⟨9, 9, hdrPlain⟩
    (by decide) (by decide), rfl⟩

/-! ## The dependency target lookup -/

/-- Claim C10: `boot_verify_slot_dependency_xip_ram` indexes the cached
headers with the target's current `active_slot` without checking that
the target is unmasked or committed, so a target with
`active_slot = BOOT_SLOT_NONE` makes the header lookup happen at the
out-of-range slot index `BOOT_SLOT_NONE` (≥ `BOOT_NUM_SLOTS`) rather
than failing cleanly. -/
theorem dependency_lookup_at_slot_none (st : BootLoaderState)
    (dep : ImageDependency)
    (h : (st.slot_usage dep.image_id).active_slot = BOOT_SLOT_NONE) :
    dep_slot_used st dep = BOOT_SLOT_NONE ∧
    BOOT_NUM_SLOTS ≤ BOOT_SLOT_NONE ∧
    boot_verify_slot_dependency_xip_ram st dep =
      (if 0 ≤ boot_compare_version
              (st.imgs dep.image_id BOOT_SLOT_NONE).ih_ver
              dep.image_min_version
       then 0
       else boot_compare_version
              (st.imgs dep.image_id BOOT_SLOT_NONE).ih_ver
              dep.image_min_version) := by
  refine ⟨by rw [dep_slot_used, h], by decide, ?_⟩
  rw [boot_verify_slot_dependency_xip_ram, dep_slot_used, h]

/-- Witness for claim C10's theorem: a dependency naming image 1, which
has no committed slot, is resolved through the header at index
`BOOT_SLOT_NONE`. -/
theorem dependency_lookup_at_slot_none_witness :
    dep_slot_used (stBase 2) ⟨1, ⟨1, 0, 0, 0⟩⟩ = BOOT_SLOT_NONE :=
  (dependency_lookup_at_slot_none (stBase 2) ⟨1, ⟨1, 0, 0, 0⟩⟩ rfl).1

end MCUBoot
